import Mathlib

/-!
# ppixiv: cross-tab messaging, virtual history and bookmark actions

A shallow embedding of four pieces of the repository:

* `VirtualHistory` (web/vview/misc/helpers.js),
* `SendImage` (web/vview/misc/send-image.js),
* `Actions.bookmark_add` and its helpers (web/vview/misc/actions.js),
* `view_illust.show_image` (src/view_illust.js).

JavaScript objects become structures, mutation becomes explicit state passing, calls into
the browser or into modules outside this embedding are recorded in call logs, and a thrown
exception is returned next to the state reached when it was thrown.
-/

namespace Ppixiv

/-! ## Shared JavaScript-level data -/

/-- A JavaScript value used as a history state.  The history code only stores and
returns these, so an object is kept as its JSON text. -/
inductive JSValue where
  | undefined
  | null
  | data (json : String)
  deriving DecidableEq, Repr

/-- A resolved `URL` object.  `helpers.args` is outside the embedded sources, so a URL
carries what `new helpers.args(url).hash.get("virtual")` returns for it: `none` when the
hash has no `virtual` key. -/
structure URL where
  href : String
  hash_virtual : Option String
  deriving DecidableEq, Repr

/-- Exceptions the embedded code can throw or meet. -/
inductive JSError where
  | Error (message : String)
  | SecurityError
  | TypeError
  /-- A string thrown as it is, as in `throw "text"`. -/
  | Thrown (value : String)
  deriving DecidableEq, Repr

deriving instance DecidableEq for Except

/-- A JavaScript number, an IEEE 754 double.  A finite double is a whole number of units
of 2^-1074, the smallest positive double, with a significand of at most 53 bits; `finite`
holds that number of units, so that `finite (2 ^ 1074)` is the number 1.  The two zeros
are not told apart. -/
inductive JSNumber where
  | finite (units : Int)
  | infinity (negative : Bool)
  | nan
  deriving DecidableEq, Repr

/-- The number of binary digits of the first `fuel` halvings of a natural number. -/
def JSNumber.bit_length_from (fuel n : Nat) : Nat :=
  match fuel with
  | 0 => 0
  | fuel + 1 => if n = 0 then 0 else JSNumber.bit_length_from fuel (n / 2) + 1

/-- The number of binary digits of a natural number, 0 for the number 0. -/
def JSNumber.bit_length (n : Nat) : Nat :=
  JSNumber.bit_length_from n n

/-- The double nearest to a whole number of units: the number is cut to 53 significant
bits, a tie going to the even significand, and what reaches 2^1024 becomes an infinity. -/
def JSNumber.round (units : Int) : JSNumber :=
  let a := units.natAbs
  let shift := JSNumber.bit_length a - 53
  let q := a / 2 ^ shift
  let r := a % 2 ^ shift
  let q1 := if 2 * r > 2 ^ shift ∨ (2 * r = 2 ^ shift ∧ q % 2 = 1) then q + 1 else q
  let m := q1 * 2 ^ shift
  if m ≥ 2 ^ 2098 then JSNumber.infinity (decide (units < 0))
  else JSNumber.finite (if units < 0 then -(m : Int) else (m : Int))

/-- The JavaScript operator `+` on two numbers. -/
def JSNumber.add (a b : JSNumber) : JSNumber :=
  match a, b with
  | JSNumber.finite u, JSNumber.finite v => JSNumber.round (u + v)
  | JSNumber.nan, _ => JSNumber.nan
  | _, JSNumber.nan => JSNumber.nan
  | JSNumber.infinity s, JSNumber.infinity t => if s = t then JSNumber.infinity s else JSNumber.nan
  | JSNumber.infinity s, JSNumber.finite _ => JSNumber.infinity s
  | JSNumber.finite _, JSNumber.infinity t => JSNumber.infinity t

/-- The double written as a whole-number literal, such as `0` or `1`. -/
def JSNumber.whole (n : Int) : JSNumber :=
  JSNumber.round (n * 2 ^ 1074)

/-- JavaScript truthiness of a string-or-null value. -/
def truthy (v : Option String) : Bool :=
  match v with
  | some s => s != ""
  | none => false

/-- Calls made on `window.history`. -/
inductive HistoryCall where
  | pushState (state : JSValue) (title : String) (url : URL)
  | replaceState (state : JSValue) (title : String) (url : URL)
  | back
  deriving DecidableEq, Repr

/-- Events dispatched on `window` by the embedded code. -/
inductive WindowEvent where
  | popstate (navigationCause : Option String)
  | quickviewpointermove (movementX movementY : Option JSNumber)
  | bookmarked (illust_id : String)
  deriving DecidableEq, Repr

/-- The browser window as far as the embedded code reads and writes it. -/
structure Window where
  /-- The value of `document.location`. -/
  location : URL
  /-- The value of `window.history.state`. -/
  history_state : JSValue
  /-- The value of `window.origin`. -/
  origin : String
  /-- True while the browser answers `window.history.replaceState` with a SecurityError. -/
  history_throttled : Bool
  /-- Every call made on `window.history`, oldest first. -/
  history_calls : List HistoryCall
  /-- Every event dispatched on `window`, oldest first. -/
  events : List WindowEvent
  deriving DecidableEq, Repr

/-- The browser's `window.history.pushState`. -/
def Window.history_pushState (w : Window) (state : JSValue) (title : String) (url : URL) : Window :=
  { w with
    location := url
    history_state := state
    history_calls := w.history_calls ++ [HistoryCall.pushState state title url] }

/-- The browser's `window.history.replaceState`: the call is always recorded, and it
throws instead of taking effect while the browser throttles history changes. -/
def Window.history_replaceState (w : Window) (state : JSValue) (title : String) (url : URL) :
    Except JSError Window × Window :=
  let logged := { w with history_calls := w.history_calls ++ [HistoryCall.replaceState state title url] }
  if w.history_throttled then
    (Except.error JSError.SecurityError, logged)
  else
    (Except.ok { logged with location := url, history_state := state }, logged)

/-- The browser's `window.history.back`: the navigation happens later, from the event
loop, so only the call is recorded. -/
def Window.history_back (w : Window) : Window :=
  { w with history_calls := w.history_calls ++ [HistoryCall.back] }

/-! ## VirtualHistory -/

/-- One entry of `VirtualHistory.history`. -/
structure HistoryEntry where
  state : JSValue
  url : URL
  deriving DecidableEq, Repr

/-- The fields of a `VirtualHistory` object.  `history` is only assigned in permanent
mode; it is the empty list otherwise. -/
structure VirtualHistory where
  virtual_url : Option URL
  virtual_state : JSValue
  virtual_title : Option String
  history : List HistoryEntry
  deriving DecidableEq, Repr

/-- The part of the page `VirtualHistory` works on: the object itself, `ppixiv.mobile`
and the browser window. -/
structure Page where
  mobile : Bool
  phistory : VirtualHistory
  window : Window
  deriving DecidableEq, Repr

/-- What a call leaves behind: the exception it threw, if any, and the page as it is
when the call ends. -/
structure Outcome where
  thrown : Option JSError
  page : Page
  deriving DecidableEq, Repr

namespace VirtualHistory

/-- The getter `permanent`. -/
def permanent (p : Page) : Bool := p.mobile

/-- The constructor of `VirtualHistory`, run on a page whose `phistory` field is
replaced by the new object. -/
def constructor (mobile : Bool) (window : Window) : Page :=
  { mobile := mobile
    phistory :=
      { virtual_url := none
        virtual_state := JSValue.undefined
        virtual_title := none
        history :=
          if mobile then [{ url := window.location, state := window.history_state }] else [] }
    window := window }

/-- The getter `virtual`. -/
def virtual (p : Page) : Bool := p.phistory.virtual_url.isSome

/-- The getter `_latest_history`: `undefined` (here `none`) on an empty array. -/
def _latest_history (p : Page) : Option HistoryEntry := p.phistory.history.getLast?

/-- The method `url_is_virtual`: the value of the `virtual` key of the hash. -/
def url_is_virtual (url : URL) : Option String := url.hash_virtual

/-- The getter `ppixiv.plocation` installed by the constructor. -/
def plocation (p : Page) : Except JSError URL :=
  match p.phistory.virtual_url with
  | some u => Except.ok u
  | none =>
    if !permanent p then Except.ok p.window.location
    else
      match _latest_history p with
      | some e => Except.ok e.url
      | none => Except.error JSError.TypeError

/-- The getter `state`. -/
def state (p : Page) : Except JSError JSValue :=
  if virtual p then Except.ok p.phistory.virtual_state
  else if !permanent p then Except.ok p.window.history_state
  else
    match _latest_history p with
    | some e => Except.ok e.state
    | none => Except.error JSError.TypeError

/-- The method `broadcast_popstate`. -/
def broadcast_popstate (p : Page) (cause : Option String) : Page :=
  { p with window :=
      { p.window with
        events := p.window.events ++ [WindowEvent.popstate (if truthy cause then cause else none)] } }

/-- The method `_update_browser_state`: an exception inside the `try` block is logged
and dropped. -/
def _update_browser_state (p : Page) : Page :=
  if !permanent p then p
  else
    match state p, _latest_history p with
    | Except.ok s, some e =>
      match p.window.history_replaceState s "" e.url with
      | (Except.ok w, _) => { p with window := w }
      | (Except.error _, logged) => { p with window := logged }
    | _, _ => p

/-- The method `pushState`.  The argument `url` stands for the URL object that the first
line makes with `new URL(url, document.location)`. -/
def pushState (p : Page) (state : JSValue) (title : String) (url : URL) : Outcome :=
  if truthy (url_is_virtual url) then
    if p.phistory.virtual_url.isSome then
      { thrown := some (JSError.Error "Can't push a second virtual location"), page := p }
    else
      { thrown := none
        page := { p with phistory :=
          { p.phistory with
            virtual_state := state
            virtual_title := some title
            virtual_url := some url } } }
  else
    let p1 : Page := { p with phistory := { p.phistory with virtual_url := none } }
    if !permanent p1 then
      { thrown := none, page := { p1 with window := p1.window.history_pushState state title url } }
    else
      let p2 : Page :=
        { p1 with phistory :=
          { p1.phistory with history := p1.phistory.history ++ [{ state := state, url := url }] } }
      { thrown := none, page := _update_browser_state p2 }

/-- The method `replaceState`.  The argument `url` stands for the URL object that the
first line makes with `new URL(url, document.location)`; `pushState` makes the same URL
object of it again. -/
def replaceState (p : Page) (state : JSValue) (title : String) (url : URL) : Outcome :=
  if truthy (url_is_virtual url) then
    if p.phistory.virtual_url.isNone then
      { thrown := some (JSError.Error "Can't replace a real history entry with a virtual one")
        page := p }
    else
      { thrown := none, page := { p with phistory := { p.phistory with virtual_url := some url } } }
  else if p.phistory.virtual_url.isSome then
    pushState { p with phistory := { p.phistory with virtual_url := none } } state title url
  else if !permanent p then
    match p.window.history_replaceState state title url with
    | (Except.ok w, _) => { thrown := none, page := { p with window := w } }
    | (Except.error e, logged) => { thrown := some e, page := { p with window := logged } }
  else
    let p1 : Page :=
      { p with phistory :=
        { p.phistory with history := p.phistory.history.dropLast ++ [{ state := state, url := url }] } }
    { thrown := none, page := _update_browser_state p1 }

/-- The method `back`. -/
def back (p : Page) : Page :=
  if p.phistory.virtual_url.isSome then
    broadcast_popstate { p with phistory := { p.phistory with virtual_url := none } }
      (some "leaving-virtual")
  else if !permanent p then
    { p with window := p.window.history_back }
  else if p.phistory.history.length == 1 then
    p
  else
    let p1 : Page := { p with phistory := { p.phistory with history := p.phistory.history.dropLast } }
    _update_browser_state (broadcast_popstate p1 none)

/-- The setter `state`.  The sources are ES modules, so the assignment to the read-only
`window.history.state` outside permanent mode throws, as does writing a field of the
`undefined` latest entry. -/
def set_state (p : Page) (value : JSValue) : Outcome :=
  let p1 : Page :=
    if virtual p then { p with phistory := { p.phistory with virtual_state := value } } else p
  if !permanent p1 then
    { thrown := some JSError.TypeError, page := p1 }
  else
    match _latest_history p1 with
    | some e =>
      { thrown := none
        page := { p1 with phistory :=
          { p1.phistory with
            history := p1.phistory.history.dropLast ++ [{ e with state := value }] } } }
    | none => { thrown := some JSError.TypeError, page := p1 }

/-- The pages a `VirtualHistory` can be in: the constructor builds the first one, the
methods and anything the browser does to the window lead to the next. -/
inductive Reachable : Page → Prop where
  | constructor (mobile : Bool) (window : Window) : Reachable (constructor mobile window)
  | pushState {p : Page} (state : JSValue) (title : String) (url : URL) :
      Reachable p → Reachable (pushState p state title url).page
  | replaceState {p : Page} (state : JSValue) (title : String) (url : URL) :
      Reachable p → Reachable (replaceState p state title url).page
  | back {p : Page} : Reachable p → Reachable (back p)
  | set_state {p : Page} (value : JSValue) : Reachable p → Reachable (set_state p value).page
  | browser {p : Page} (window : Window) : Reachable p → Reachable { p with window := window }

end VirtualHistory

/-! ## SendImage -/

/-- Image data as it travels in a message: the field the code reads, and the rest of the
record as text. -/
structure MediaInfo where
  userId : Option String
  json : String
  deriving DecidableEq, Repr

/-- A message on the `ppixiv:send-image` channel.  A field that the object does not
have, or that holds `null`, is `none`.  The fields `from_` and `to_` are the JavaScript
fields `from` and `to`. -/
structure Message where
  message : String
  from_ : Option String := none
  to_ : Option (List String) := none
  tab_id_tiebreaker : Option Nat := none
  action : Option String := none
  media_id : Option String := none
  media_info : Option MediaInfo := none
  user_info : Option String := none
  bookmark_tags : Option (List String) := none
  origin : Option String := none
  x : Option JSNumber := none
  y : Option JSNumber := none
  self : Option Bool := none
  /-- Every other field of the object, as its name and its JSON text. -/
  other : List (String × String) := []
  deriving DecidableEq, Repr

/-- Calls into `ppixiv.media_cache`, `ppixiv.user_cache` and `ppixiv.extra_cache` that
change them. -/
inductive CacheCall where
  | add_user_data (user_info : String)
  | add_media_info_full (media_info : MediaInfo) (preprocessed : Bool)
  | update_media_info (media_id : Option String) (media_info : MediaInfo)
  | update_cached_bookmark_image_tags (media_id : Option String) (tags : List String)
  deriving DecidableEq, Repr

/-- Calls into the application and the navigation helper. -/
inductive AppCall where
  | show_media (media_id : Option String) (temp_view : Bool) (source : String)
      (add_to_history : Bool)
  | navigate (location : URL) (deleted_hash_keys : List String) (add_to_history : Bool)
  deriving DecidableEq, Repr

/-- What a cache does when one of its updating methods is called: the media ID it fires
`mediamodified` for, if any, and the exception it ends with, if any. -/
structure CacheReaction where
  mediamodified : Option String
  throws : Option JSError
  deriving DecidableEq, Repr

/-- The surroundings of a `SendImage` that the embedded code only asks questions of. -/
structure Env where
  /-- The value of `ppixiv.android`. -/
  android : Bool
  /-- What the next call of `helpers.create_uuid()` returns. -/
  create_uuid : String
  /-- The cache getter `ppixiv.media_cache.get_media_info_sync`. -/
  get_media_info_sync : String → Option MediaInfo
  /-- The cache getter `ppixiv.user_cache.get_user_info_sync`. -/
  get_user_info_sync : String → Option String
  /-- The cache getter `ppixiv.extra_cache.get_bookmark_details_sync`. -/
  get_bookmark_details_sync : String → Option (List String)
  /-- How the caches answer an updating call. -/
  react : CacheCall → CacheReaction

/-- The fields of a `SendImage` object. -/
structure SendImage where
  tab_id : String
  tab_id_tiebreaker : Nat
  pending_movement : JSNumber × JSNumber
  last_movement_message_time : Option Nat
  handling_broadcasted_image_info : Bool
  deriving DecidableEq, Repr

/-- A tab: its `SendImage`, its page, its storage and settings, and the record of what
it has sent and called. -/
structure World where
  send_image : SendImage
  page : Page
  /-- The stored `localStorage.ppixivTabId`. -/
  localStorage_ppixivTabId : Option String
  /-- The stored `sessionStorage.ppixivTabId`. -/
  sessionStorage_ppixivTabId : Option String
  /-- The setting `linked_tabs_enabled`. -/
  linked_tabs_enabled : Bool
  /-- The setting `linked_tabs`. -/
  linked_tabs : List String
  /-- Messages handed to `send_image_channel.postMessage`, oldest first. -/
  posted : List Message
  /-- Messages dispatched on the channel of this tab itself, oldest first. -/
  delivered_to_self : List Message
  /-- Events dispatched on `messages`: each event has the type `data.message` and carries
  `data` as its `message`. -/
  dispatched : List Message
  /-- Updating calls made on the caches, oldest first. -/
  cache_calls : List CacheCall
  /-- Calls made on the application, oldest first. -/
  app_calls : List AppCall
  deriving DecidableEq, Repr

/-- What a handler leaves behind: the exception it ended with, if any, and the tab as it
is when the handler ends. -/
structure Handled where
  thrown : Option JSError
  world : World
  deriving DecidableEq, Repr

namespace SendImage

/-- The method `create_tab_id`: the ID it returns and the tab afterwards. -/
def create_tab_id (env : Env) (w : World) (recreate : Bool) : String × World :=
  let stored := if env.android then w.localStorage_ppixivTabId else w.sessionStorage_ppixivTabId
  if !recreate && truthy stored then
    (stored.getD "", w)
  else if env.android then
    (env.create_uuid, { w with localStorage_ppixivTabId := some env.create_uuid })
  else
    (env.create_uuid, { w with sessionStorage_ppixivTabId := some env.create_uuid })

/-- The first two statements of `send_message`, `data.from = this.tab_id` and
`postMessage(data)`: the tab afterwards, and the object of the caller as they leave it.
They are all that `send_message` does when `send_to_self` is missing or false, as in every
call the methods of `SendImage` make. -/
def send_message_to_channel (w : World) (data : Message) : World × Message :=
  let data1 : Message := { data with from_ := some w.send_image.tab_id }
  ({ w with posted := w.posted ++ [data1] }, data1)

/-- The method `broadcast_tab_info`. -/
def broadcast_tab_info (w : World) : World :=
  let our_tab_info : Message :=
    { message := "tab-info", tab_id_tiebreaker := some w.send_image.tab_id_tiebreaker }
  (send_message_to_channel w our_tab_info).1

/-- The method `broadcast_image_info`. -/
def broadcast_image_info (env : Env) (w : World) (media_id : String) : World :=
  let media_info := env.get_media_info_sync media_id
  let user_id := media_info.bind MediaInfo.userId
  let user_info := if truthy user_id then env.get_user_info_sync (user_id.getD "") else none
  (send_message_to_channel w
    { message := "image-info"
      from_ := some w.send_image.tab_id
      media_id := some media_id
      media_info := media_info
      bookmark_tags := env.get_bookmark_details_sync media_id
      user_info := user_info
      origin := some w.page.window.origin }).1

/-- The method `broadcast_illust_changes`, the listener for `mediamodified`. -/
def broadcast_illust_changes (env : Env) (w : World) (media_id : String) : World :=
  if w.send_image.handling_broadcasted_image_info then w
  else broadcast_image_info env w media_id

/-- An updating call on a cache: it is recorded, the `mediamodified` listener runs if the
cache fires the event, and the call returns or throws as the cache decides. -/
def cache_call (env : Env) (w : World) (c : CacheCall) : Handled :=
  let w1 : World := { w with cache_calls := w.cache_calls ++ [c] }
  let w2 : World :=
    match (env.react c).mediamodified with
    | some media_id => broadcast_illust_changes env w1 media_id
    | none => w1
  { thrown := (env.react c).throws, world := w2 }

/-- The method `hide_preview_image`. -/
def hide_preview_image (w : World) : World :=
  if !VirtualHistory.virtual w.page then w
  else { w with page := VirtualHistory.back w.page }

/-- Run the next step of a handler unless the previous one threw. -/
def andThen (h : Handled) (next : World → Handled) : Handled :=
  match h.thrown with
  | some _ => h
  | none => next h.world

/-- The addressing test at the head of `received_message`:
`data.to && data.to.indexOf(this.tab_id) == -1`. -/
def for_another_tab (w : World) (data : Message) : Bool :=
  match data.to_ with
  | some ids => !ids.contains w.send_image.tab_id
  | none => false

/-- The comparison `this.tab_id_tiebreaker >= data.tab_id_tiebreaker`, which is false
against a missing field. -/
def tiebreaker_ge (w : World) (data : Message) : Bool :=
  match data.tab_id_tiebreaker with
  | some theirs => decide (theirs ≤ w.send_image.tab_id_tiebreaker)
  | none => false

/-- The assignment `this.tab_id = this.create_tab_id(true)`. -/
def recreate_tab_id (env : Env) (w : World) : World :=
  let r := create_tab_id env w true
  { r.2 with send_image := { r.2.send_image with tab_id := r.1 } }

/-- The `"tab-info"` branch of `received_message`. -/
def received_tab_info (env : Env) (w : World) (data : Message) : Handled :=
  if data.from_ == some w.send_image.tab_id then
    let w1 := if tiebreaker_ge w data then recreate_tab_id env w else w
    { thrown := none, world := broadcast_tab_info w1 }
  else
    { thrown := none, world := w }

/-- The `"send-image"` branch of `received_message`. -/
def received_send_image (env : Env) (w : World) (data : Message) : Handled :=
  let registered : Handled :=
    if data.origin == some w.page.window.origin then
      andThen
        (match data.user_info with
          | some user_info => cache_call env w (CacheCall.add_user_data user_info)
          | none => { thrown := none, world := w })
        (fun w1 =>
          match data.media_info with
          | some media_info => cache_call env w1 (CacheCall.add_media_info_full media_info true)
          | none => { thrown := none, world := w1 })
    else
      { thrown := none, world := w }
  andThen registered (fun w1 =>
    if data.action == some "finalize" then
      match VirtualHistory.plocation w1.page with
      | Except.ok location =>
        { thrown := none
          world := { w1 with app_calls :=
            w1.app_calls ++ [AppCall.navigate location ["virtual", "temp-view"] false] } }
      | Except.error e => { thrown := some e, world := w1 }
    else if data.action == some "cancel" then
      { thrown := none, world := hide_preview_image w1 }
    else
      { thrown := none
        world := { w1 with app_calls :=
          w1.app_calls ++
            [AppCall.show_media data.media_id (data.action == some "temp-view") "temp-view"
              (!VirtualHistory.virtual w1.page)] } })

/-- The `"image-info"` branch of `received_message`. -/
def received_image_info (env : Env) (w : World) (data : Message) : Handled :=
  if data.origin != some w.page.window.origin then
    { thrown := none, world := w }
  else
    let w1 : World :=
      { w with send_image := { w.send_image with handling_broadcasted_image_info := true } }
    let tried : Handled :=
      andThen
        (match data.media_info with
          | some media_info => cache_call env w1 (CacheCall.update_media_info data.media_id media_info)
          | none => { thrown := none, world := w1 })
        (fun w2 =>
          andThen
            (match data.bookmark_tags with
              | some bookmark_tags =>
                cache_call env w2
                  (CacheCall.update_cached_bookmark_image_tags data.media_id bookmark_tags)
              | none => { thrown := none, world := w2 })
            (fun w3 =>
              match data.user_info with
              | some user_info => cache_call env w3 (CacheCall.add_user_data user_info)
              | none => { thrown := none, world := w3 }))
    { thrown := tried.thrown
      world := { tried.world with send_image :=
        { tried.world.send_image with handling_broadcasted_image_info := false } } }

/-- The `"preview-mouse-movement"` branch of `received_message`. -/
def received_preview_mouse_movement (w : World) (data : Message) : Handled :=
  if !VirtualHistory.virtual w.page then
    { thrown := none, world := w }
  else
    { thrown := none
      world := { w with page := { w.page with window := { w.page.window with
        events := w.page.window.events ++ [WindowEvent.quickviewpointermove data.x data.y] } } } }

/-- The listener `received_message`.  It has no `await`, so it runs to its end in one
piece. -/
def received_message (env : Env) (w : World) (data : Message) : Handled :=
  if for_another_tab w data then
    { thrown := none, world := w }
  else
    let w1 : World := { w with dispatched := w.dispatched ++ [data] }
    if data.message == "tab-info" then received_tab_info env w1 data
    else if data.message == "list-tabs" then { thrown := none, world := broadcast_tab_info w1 }
    else if data.message == "send-image" then received_send_image env w1 data
    else if data.message == "image-info" then received_image_info env w1 data
    else if data.message == "preview-mouse-movement" then received_preview_mouse_movement w1 data
    else { thrown := none, world := w1 }

/-- What `JSON.parse(JSON.stringify(value))` gives for a number field: a finite number
comes back as it is, and an infinity or NaN is written as `null`, which like a missing
field is `none`. -/
def json_number (value : Option JSNumber) : Option JSNumber :=
  match value with
  | some (JSNumber.finite u) => some (JSNumber.finite u)
  | _ => none

/-- The copy `JSON.parse(JSON.stringify(data))` of a message. -/
def json_copy (data : Message) : Message :=
  { data with x := json_number data.x, y := json_number data.y }

/-- The method `send_message`: the tab afterwards, and the object of the caller as the
call leaves it.  With `send_to_self` the copy is dispatched on the channel, where
`received_message` is the listener: it runs at once on the copy, and what it throws stays
in its promise. -/
def send_message (env : Env) (w : World) (data : Message) (send_to_self : Bool) :
    World × Message :=
  let sent := send_message_to_channel w data
  if send_to_self then
    let copy : Message := { json_copy sent.2 with self := some true }
    let w1 : World := { sent.1 with delivered_to_self := sent.1.delivered_to_self ++ [copy] }
    ((received_message env w1 copy).world, sent.2)
  else
    sent

/-- The constructor of `SendImage`, for a tab with the given page, storage and settings:
`now` is what `Date.now()` returns. -/
def constructor (env : Env) (now : Nat) (page : Page)
    (localStorage_ppixivTabId sessionStorage_ppixivTabId : Option String)
    (linked_tabs_enabled : Bool) (linked_tabs : List String) : World :=
  let w0 : World :=
    { send_image :=
        { tab_id := ""
          tab_id_tiebreaker := now
          pending_movement := (JSNumber.whole 0, JSNumber.whole 0)
          last_movement_message_time := none
          handling_broadcasted_image_info := false }
      page := page
      localStorage_ppixivTabId := localStorage_ppixivTabId
      sessionStorage_ppixivTabId := sessionStorage_ppixivTabId
      linked_tabs_enabled := linked_tabs_enabled
      linked_tabs := linked_tabs
      posted := []
      delivered_to_self := []
      dispatched := []
      cache_calls := []
      app_calls := [] }
  let r := create_tab_id env w0 false
  let w1 : World := { r.2 with send_image := { r.2.send_image with tab_id := r.1 } }
  (send_message_to_channel (broadcast_tab_info w1) { message := "list-tabs" }).1

/-- The method `send_mouse_movement_to_linked_tabs`: `now_compared` and `now_stored` are
what the two calls of `Date.now()` return. -/
def send_mouse_movement_to_linked_tabs (w : World) (x y : JSNumber)
    (now_compared now_stored : Nat) : World :=
  if !w.linked_tabs_enabled then w
  else if w.linked_tabs.length == 0 then w
  else
    let pending : JSNumber × JSNumber :=
      (JSNumber.add w.send_image.pending_movement.1 x, JSNumber.add w.send_image.pending_movement.2 y)
    let w1 : World := { w with send_image := { w.send_image with pending_movement := pending } }
    let too_soon : Bool :=
      match w1.send_image.last_movement_message_time with
      | some last => decide ((now_compared : Int) - (last : Int) < 10)
      | none => false
    if too_soon then w1
    else
      let w2 : World :=
        { w1 with send_image := { w1.send_image with last_movement_message_time := some now_stored } }
      let w3 : World :=
        (send_message_to_channel w2
          { message := "preview-mouse-movement"
            x := some pending.1
            y := some pending.2
            to_ := some w2.linked_tabs }).1
      { w3 with send_image :=
          { w3.send_image with pending_movement := (JSNumber.whole 0, JSNumber.whole 0) } }

end SendImage

/-! ## Actions: creating and editing bookmarks -/

/-- The `bookmarkData` of an image that is bookmarked.  The field `private_` is the
JavaScript field `private`. -/
structure BookmarkData where
  id : String
  private_ : Bool
  deriving DecidableEq, Repr

/-- The `options` object of `bookmark_add`.  For `tags` and `private_` (the JavaScript
field `private`) the outer `none` is an object without the key, and `some none` is the
key holding `null` or `undefined`. -/
structure BookmarkOptions where
  tags : Option (Option (List String)) := none
  private_ : Option (Option Bool) := none
  disable_auto_like : Bool := false
  deriving DecidableEq, Repr

/-- The value of `options.tags`, with `none` for `null` and `undefined`. -/
def BookmarkOptions.get_tags (options : BookmarkOptions) : Option (List String) :=
  options.tags.join

/-- The value of `options.private`, with `none` for `null` and `undefined`. -/
def BookmarkOptions.get_private (options : BookmarkOptions) : Option Bool :=
  options.private_.join

/-- Requests sent to the site or to the local server. -/
inductive Request where
  | bookmarks_add (illust_id : String) (tags : List String) (restrict : Nat)
  | bookmarks_edit_restrict (bookmarkIds : List String) (bookmarkRestrict : String)
  | local_bookmark_add (media_id : String) (tags : Option (List String))
  deriving DecidableEq, Repr

/-- The answer of the local server to a bookmark request. -/
structure LocalBookmarkResult where
  success : Bool
  reason : String
  bookmark : BookmarkData
  tags : List String
  deriving DecidableEq, Repr

/-- The surroundings of `Actions`: helpers and servers outside the embedded sources. -/
structure ActionsEnv where
  /-- The helper `helpers.is_media_id_local`. -/
  is_media_id_local : String → Bool
  /-- The first component of `helpers.media_id_to_illust_id_and_page`. -/
  media_id_to_illust_id : String → String
  /-- The `type` that `helpers.parse_media_id` finds in a media ID. -/
  media_id_type : String → String
  /-- The `last_bookmark_id` in the answer to a bookmark add request. -/
  last_bookmark_id : Request → Option String
  /-- Whether `ppixiv.media_cache.get_media_info_sync` finds full data for an image. -/
  get_media_info_sync : String → Bool
  /-- What `ppixiv.extra_cache.load_bookmark_details` resolves to. -/
  load_bookmark_details : String → List String
  /-- The answer of the local server. -/
  local_post_request : Request → LocalBookmarkResult

/-- The state `Actions` reads and writes: the setting, the caches, and the record of what
was sent, shown and called. -/
structure ActionsWorld where
  /-- The setting `bookmark_privately_by_default`. -/
  bookmark_privately_by_default : Bool
  /-- The `bookmarkData` of each image in `ppixiv.media_cache`. -/
  bookmarkData : String → Option BookmarkData
  /-- The bookmark tags of each image in `ppixiv.extra_cache`. -/
  bookmark_tags : String → Option (List String)
  /-- Requests sent, oldest first. -/
  requests : List Request
  /-- Calls of `Actions.like_image(media_id, true)`, oldest first. -/
  like_image_calls : List String
  /-- Calls of `RecentBookmarkTags.updateRecentBookmarkTags`, oldest first. -/
  recent_bookmark_tags : List (List String)
  /-- Calls of `ppixiv.extra_cache.load_bookmark_details`, oldest first. -/
  bookmark_details_loads : List String
  /-- Images whose `bookmarkCount` was increased, oldest first. -/
  bookmark_count_increments : List String
  /-- Texts passed to `ppixiv.message.show`, oldest first. -/
  shown : List String
  /-- Events dispatched on `window`, oldest first. -/
  events : List WindowEvent
  /-- Calls of `call_illust_modified_callbacks`, oldest first. -/
  illust_modified_callbacks : List String

/-- What an action leaves behind: the exception it ended with, if any, and the state
when it ends. -/
structure Acted where
  thrown : Option JSError
  world : ActionsWorld

namespace Actions

/-- The cache call `update_media_info(media_id, { bookmarkData })`: the cache is outside
the embedded sources, and the call is taken to store the field it is given. -/
def update_media_info (w : ActionsWorld) (media_id : String) (bookmarkData : Option BookmarkData) :
    ActionsWorld :=
  { w with bookmarkData := fun id => if id = media_id then bookmarkData else w.bookmarkData id }

/-- The cache call `update_cached_bookmark_image_tags(media_id, tags)`, taken to store
the tags it is given. -/
def update_cached_bookmark_image_tags (w : ActionsWorld) (media_id : String)
    (tags : Option (List String)) : ActionsWorld :=
  { w with bookmark_tags := fun id => if id = media_id then tags else w.bookmark_tags id }

/-- The method `_bookmark_add_internal`. -/
def _bookmark_add_internal (env : ActionsEnv) (w : ActionsWorld) (media_id : String)
    (options : Option BookmarkOptions) : Acted :=
  let illust_id := env.media_id_to_illust_id media_id
  let bookmarkData := w.bookmarkData media_id
  let options : BookmarkOptions := options.getD {}
  let w1 : ActionsWorld :=
    if !options.disable_auto_like then
      { w with like_image_calls := w.like_image_calls ++ [media_id] }
    else w
  let was_bookmarked := bookmarkData.isSome
  let request_tags : List String := options.get_tags.getD []
  let request_restrict : Nat := if options.get_private == some true then 1 else 0
  let request := Request.bookmarks_add illust_id request_tags request_restrict
  let w2 : ActionsWorld := { w1 with requests := w1.requests ++ [request] }
  let new_bookmark_id : Option String :=
    match env.last_bookmark_id request with
    | some id => some id
    | none => bookmarkData.map BookmarkData.id
  match new_bookmark_id with
  | none => { thrown := some (JSError.Thrown "Didn't get a bookmark ID"), world := w2 }
  | some id =>
    let w3 := update_media_info w2 media_id (some { id := id, private_ := request_restrict != 0 })
    let w4 : ActionsWorld := { w3 with events := w3.events ++ [WindowEvent.bookmarked illust_id] }
    let w5 := update_cached_bookmark_image_tags w4 media_id (some request_tags)
    let w6 : ActionsWorld :=
      if !was_bookmarked && env.get_media_info_sync media_id then
        { w5 with bookmark_count_increments := w5.bookmark_count_increments ++ [media_id] }
      else w5
    let text :=
      if was_bookmarked then "Bookmark edited"
      else if options.get_private == some true then "Bookmarked privately" else "Bookmarked"
    { thrown := none
      world := { w6 with
        shown := w6.shown ++ [text]
        illust_modified_callbacks := w6.illust_modified_callbacks ++ [media_id] } }

/-- The method `bookmark_set_private`. -/
def bookmark_set_private (env : ActionsEnv) (w : ActionsWorld) (media_id : String)
    (private_bookmark : Bool) : Acted :=
  if env.is_media_id_local media_id then { thrown := none, world := w }
  else
    match w.bookmarkData media_id with
    | none => { thrown := none, world := w }
    | some bookmarkData =>
      let bookmark_id := bookmarkData.id
      let w1 : ActionsWorld :=
        { w with requests := w.requests ++
            [Request.bookmarks_edit_restrict [bookmark_id]
              (if private_bookmark then "private" else "public")] }
      let w2 := update_media_info w1 media_id (some { id := bookmark_id, private_ := private_bookmark })
      { thrown := none
        world := { w2 with
          shown := w2.shown ++ [if private_bookmark then "Bookmarked privately" else "Bookmarked"]
          illust_modified_callbacks := w2.illust_modified_callbacks ++ [media_id] } }

/-- The method `_localBookmarkAdd`.  It reads `options.tags` before anything replaces a
missing `options`. -/
def _localBookmarkAdd (env : ActionsEnv) (w : ActionsWorld) (media_id : String)
    (options : Option BookmarkOptions) : Acted :=
  match options with
  | none => { thrown := some JSError.TypeError, world := w }
  | some options =>
    let was_bookmarked := (w.bookmarkData media_id).isSome
    let request := Request.local_bookmark_add media_id options.get_tags
    let w1 : ActionsWorld := { w with requests := w.requests ++ [request] }
    let result := env.local_post_request request
    if !result.success then
      { thrown := none
        world := { w1 with shown := w1.shown ++ ["Couldn't edit bookmark: " ++ result.reason] } }
    else
      let w2 := update_cached_bookmark_image_tags w1 media_id (some result.tags)
      let w3 := update_media_info w2 media_id (some result.bookmark)
      let text :=
        if was_bookmarked then "Bookmark edited"
        else if env.media_id_type media_id == "folder" then "Bookmarked folder" else "Bookmarked"
      { thrown := none
        world := { w3 with
          shown := w3.shown ++ [text]
          illust_modified_callbacks := w3.illust_modified_callbacks ++ [media_id] } }

/-- The loop of `bookmark_add` that adds the tags new to the bookmark to the recently
used tags, one call for each. -/
def update_recent_new_tags (w : ActionsWorld) (bookmark_tags : List String) :
    List String → ActionsWorld
  | [] => w
  | tag :: rest =>
    let w1 : ActionsWorld :=
      if !bookmark_tags.contains tag then
        { w with recent_bookmark_tags := w.recent_bookmark_tags ++ [[tag]] }
      else w
    update_recent_new_tags w1 bookmark_tags rest

/-- The method `bookmark_add`. -/
def bookmark_add (env : ActionsEnv) (w : ActionsWorld) (media_id : String)
    (options : Option BookmarkOptions) : Acted :=
  if env.is_media_id_local media_id then _localBookmarkAdd env w media_id options
  else
    let options : BookmarkOptions := options.getD {}
    let options : BookmarkOptions :=
      if options.get_private.isNone && w.bookmark_privately_by_default then
        { options with private_ := some (some true) }
      else options
    match w.bookmarkData media_id with
    | none =>
      let w1 : ActionsWorld :=
        match options.get_tags with
        | some tags => { w with recent_bookmark_tags := w.recent_bookmark_tags ++ [tags] }
        | none => w
      _bookmark_add_internal env w1 media_id (some options)
    | some bookmarkData =>
      match options.get_tags, options.get_private with
      | none, none => { thrown := none, world := w }
      | none, some private_bookmark => bookmark_set_private env w media_id private_bookmark
      | some tags, _ =>
        let bookmark_tags := env.load_bookmark_details media_id
        let w1 : ActionsWorld :=
          { w with bookmark_details_loads := w.bookmark_details_loads ++ [media_id] }
        let bookmark_params : BookmarkOptions :=
          { disable_auto_like := true
            private_ :=
              if options.private_.isSome then some options.get_private
              else some (some bookmarkData.private_)
            tags :=
              if options.tags.isSome then some options.get_tags
              else some (some bookmark_tags) }
        let w2 := update_recent_new_tags w1 bookmark_tags tags
        _bookmark_add_internal env w2 media_id (some bookmark_params)

end Actions

/-! ## view_illust: showing an image

Styling of the document body and the contents of the user interface are left out; calls
into the viewers, the preloader, the thumbnail strip and the URL helper are recorded. -/

/-- The fields of the image info that `show_image` reads. -/
structure IllustData where
  pageCount : Int
  illustType : Int
  deriving DecidableEq, Repr

/-- The classes of viewer that `show_image` creates. -/
inductive ViewerKind where
  | viewer_images
  | viewer_ugoira
  | viewer_muted
  deriving DecidableEq, Repr

/-- A viewer.  The viewer classes are outside the embedded sources: `page` holds the page
the viewer was handed last, by the `manga_page` option of its constructor or by an
assignment to `viewer.page`, and is `none` for a viewer that was handed none. -/
structure Viewer where
  kind : ViewerKind
  page : Option Int
  deriving DecidableEq, Repr

/-- Calls that `show_image` makes on its collaborators. -/
inductive ViewCall where
  | set_current_image (illust_id : String)
  | set_speculative_image (illust_id : Option String)
  | set_args_page (page : Int) (add_to_history : Bool)
  | current_page_changed (page : Int)
  | set_illust_info (known : Bool)
  | snap_transition
  | refresh_ui
  | message_hide
  | viewer_shutdown
  | new_viewer_images (manga_page : Int)
  | new_viewer_ugoira
  | new_viewer_muted
  | viewer_set_page (page : Int)
  deriving DecidableEq, Repr

/-- The surroundings of `view_illust` that `show_image` only asks questions of. -/
structure ViewEnv where
  /-- The helper `helpers.clamp(value, min, max)`, which is outside the embedded sources. -/
  clamp : Int → Int → Int → Int
  /-- The value of `args.hash.get("page")` for the current location. -/
  hash_page : Option String
  /-- Whether the conversion of a text to a number, which the language applies when it
  compares a text with a number, gives 1: true of "1", "1.0", "+1" and " 1". -/
  is_number_one : String → Bool
  /-- Whether `thumbnail_data` has thumbnail info for an image. -/
  has_thumbnail_info : String → Bool
  /-- Whether the tags or the user of the thumbnail info of an image are muted. -/
  thumbnail_muted : String → Bool
  /-- Whether the tags or the user of an image are muted. -/
  muted : IllustData → Bool
  /-- The neighbour `id_list.get_neighboring_illust_id` finds for an image. -/
  get_neighboring_illust_id : String → Bool → Option String

/-- The fields of a `view_illust` that `show_image` works on.  For `current_illust_id`,
`none` is the value -1 that marks "no image". -/
structure ViewIllust where
  _active : Bool
  current_illust_id : Option String
  current_illust_data : Option IllustData
  wanted_illust_id : Option String
  wanted_illust_page : Int
  viewer : Option Viewer
  _hide_image : Bool
  flashed_page_change : Bool
  /-- Whether `pending_navigation` is set. -/
  pending_navigation : Bool
  /-- Whether `manga_thumbnails` is set. -/
  manga_thumbnails : Bool
  /-- Whether the quick preview image is in place. -/
  preview : Bool
  latest_navigation_direction_down : Bool
  /-- Calls made so far, oldest first. -/
  calls : List ViewCall
  deriving DecidableEq, Repr

namespace view_illust

/-- Record a call. -/
def call (v : ViewIllust) (c : ViewCall) : ViewIllust :=
  { v with calls := v.calls ++ [c] }

/-- The method `cancel_async_navigation`. -/
def cancel_async_navigation (v : ViewIllust) : ViewIllust :=
  if !v.pending_navigation then v else { v with pending_navigation := false }

/-- The method `hide_preview`. -/
def hide_preview (v : ViewIllust) : ViewIllust :=
  { v with preview := false }

/-- The method `show_fast_preview`. -/
def show_fast_preview (env : ViewEnv) (v : ViewIllust) (illust_id : String) (manga_page : Int) :
    ViewIllust :=
  let v1 := hide_preview v
  if !env.has_thumbnail_info illust_id then v1
  else if manga_page != 0 then v1
  else if env.thumbnail_muted illust_id then v1
  else if some illust_id == v1.current_illust_id && v1.viewer.isSome then v1
  else
    let v2 : ViewIllust := { v1 with preview := true }
    if v2.viewer.isSome then { call v2 ViewCall.viewer_shutdown with viewer := none } else v2

/-- The part of `show_image` that runs before it waits for the image info: the view
afterwards, and whether the method goes on to wait. -/
def show_image_begin (env : ViewEnv) (v : ViewIllust) (illust_id : String) (manga_page : Int) :
    Bool × ViewIllust :=
  let v1 : ViewIllust := { v with flashed_page_change := false }
  let v2 := cancel_async_navigation v1
  let v3 : ViewIllust :=
    { v2 with wanted_illust_id := some illust_id, wanted_illust_page := manga_page }
  if some illust_id == v3.current_illust_id && v3.viewer.isSome &&
      v3.viewer.bind Viewer.page == some v3.wanted_illust_page && !v3._hide_image then
    (false, v3)
  else if !v3._active then
    (false, v3)
  else
    (true, show_fast_preview env (call v3 (ViewCall.set_current_image illust_id)) illust_id manga_page)

/-- The comparison `current_page_arg != wanted_page_arg` of `show_image`, between the
page in the hash (or "1") and the wanted page.  When the image has several pages the
wanted page is a string and the two are compared as text; otherwise it is the number 1,
and `!=` converts the page in the hash to a number first. -/
def page_arg_differs (env : ViewEnv) (illust_data : IllustData) (manga_page : Int) : Bool :=
  let current_page_arg : String := if truthy env.hash_page then env.hash_page.getD "" else "1"
  if illust_data.pageCount > 1 then current_page_arg != toString (manga_page + 1)
  else !env.is_number_one current_page_arg

/-- The lines of `show_image` that update the page in the URL, with `manga_page` the
page after the range check. -/
def show_image_update_url (env : ViewEnv) (v : ViewIllust) (illust_data : IllustData)
    (manga_page : Int) : ViewIllust :=
  if page_arg_differs env illust_data manga_page then
    call v (ViewCall.set_args_page (if illust_data.pageCount > 1 then manga_page + 1 else 1) false)
  else v

/-- The branch of `show_image` for an image that does not change, with `manga_page` the
page after the range check. -/
def show_image_same_image (v : ViewIllust) (manga_page : Int) : ViewIllust :=
  let v1 : ViewIllust :=
    { v with
      _hide_image := false
      viewer := v.viewer.map (fun viewer => { viewer with page := some v.wanted_illust_page }) }
  let v2 := call v1 (ViewCall.viewer_set_page v.wanted_illust_page)
  let v3 := if v2.manga_thumbnails then call v2 (ViewCall.current_page_changed manga_page) else v2
  call v3 ViewCall.refresh_ui

/-- The lines of `show_image` that create the viewer of an image that is not muted. -/
def show_image_create_viewer (v : ViewIllust) (illust_data : IllustData) : ViewIllust :=
  let manga_page : Int :=
    if v.wanted_illust_page == -1 then illust_data.pageCount - 1 else v.wanted_illust_page
  let v1 :=
    if v.manga_thumbnails then
      call (call (call v (ViewCall.set_illust_info true)) ViewCall.snap_transition)
        (ViewCall.current_page_changed manga_page)
    else v
  let v2 : ViewIllust :=
    if illust_data.illustType == 2 then
      { call v1 ViewCall.new_viewer_ugoira with
        viewer := some { kind := ViewerKind.viewer_ugoira, page := none } }
    else
      { call v1 (ViewCall.new_viewer_images manga_page) with
        viewer := some { kind := ViewerKind.viewer_images, page := some manga_page } }
  call v2 ViewCall.refresh_ui

/-- The branch of `show_image` for an image that replaces what is shown. -/
def show_image_new_image (env : ViewEnv) (v : ViewIllust) (illust_id : String)
    (illust_data : IllustData) : ViewIllust :=
  let first_image_displayed := v.current_illust_id.isNone || v._hide_image
  let v1 :=
    if !first_image_displayed then
      call v (ViewCall.set_speculative_image
        (env.get_neighboring_illust_id illust_id v.latest_navigation_direction_down))
    else v
  let v2 : ViewIllust :=
    { v1 with current_illust_id := some illust_id, current_illust_data := some illust_data }
  let v3 := call (call v2 ViewCall.refresh_ui) ViewCall.message_hide
  let v4 : ViewIllust :=
    if v3.viewer.isSome then { call v3 ViewCall.viewer_shutdown with viewer := none } else v3
  let v5 : ViewIllust := { v4 with _hide_image := false }
  if env.muted illust_data then
    let v6 := if v5.manga_thumbnails then call v5 (ViewCall.set_illust_info false) else v5
    { call v6 ViewCall.new_viewer_muted with
      viewer := some { kind := ViewerKind.viewer_muted, page := none } }
  else
    show_image_create_viewer v5 illust_data

/-- The part of `show_image` that runs once the image info `illust_data` has arrived, on
the view as it is by then. -/
def show_image_resume (env : ViewEnv) (v : ViewIllust) (illust_id : String) (manga_page : Int)
    (illust_data : IllustData) : ViewIllust :=
  if !v._active || v.wanted_illust_id != some illust_id then v
  else
    let v1 := hide_preview v
    let manga_page : Int :=
      if manga_page == -1 then illust_data.pageCount - 1
      else env.clamp manga_page 0 (illust_data.pageCount - 1)
    let v2 := show_image_update_url env v1 illust_data manga_page
    if some illust_id == v2.current_illust_id && v2.viewer.isSome then
      show_image_same_image v2 manga_page
    else
      show_image_new_image env v2 illust_id illust_data

/-- The method `show_image` when nothing else touches the view while it waits for the
image info, which arrives as `illust_data`. -/
def show_image (env : ViewEnv) (v : ViewIllust) (illust_id : String) (manga_page : Int)
    (illust_data : IllustData) : ViewIllust :=
  let begun := show_image_begin env v illust_id manga_page
  if begun.1 then show_image_resume env begun.2 illust_id manga_page illust_data else begun.2

/-- A view used in the examples: active, with no image and no viewer yet. -/
def example_view : ViewIllust :=
  { _active := true
    current_illust_id := none
    current_illust_data := none
    wanted_illust_id := none
    wanted_illust_page := 0
    viewer := none
    _hide_image := false
    flashed_page_change := false
    pending_navigation := false
    manga_thumbnails := false
    preview := false
    latest_navigation_direction_down := true
    calls := [] }

end view_illust

/-! ## Definitions used to state the properties -/

namespace VirtualHistory

/-- A page used in the examples: permanent mode, one real entry, nothing virtual. -/
def example_page : Page :=
  constructor true
    { location := { href := "https://www.pixiv.net/#/", hash_virtual := none }
      history_state := JSValue.null
      origin := "https://www.pixiv.net"
      history_throttled := false
      history_calls := []
      events := [] }

/-- A virtual URL used in the examples. -/
def example_virtual_url : URL :=
  { href := "https://www.pixiv.net/#/?virtual=1", hash_virtual := some "1" }

/-- A second virtual URL used in the examples. -/
def example_virtual_url2 : URL :=
  { href := "https://www.pixiv.net/#/?illust_id=2&virtual=1", hash_virtual := some "1" }

/-- A real URL used in the examples. -/
def example_real_url : URL :=
  { href := "https://www.pixiv.net/#/?illust_id=1", hash_virtual := none }

end VirtualHistory

namespace SendImage

/-- The message `broadcast_tab_info` sends for a tab: its tab ID and its tiebreaker. -/
def tab_info_message (w : World) : Message :=
  { message := "tab-info"
    from_ := some w.send_image.tab_id
    tab_id_tiebreaker := some w.send_image.tab_id_tiebreaker }

/-- An environment used in the examples: the next UUID is "fresh-uuid", the caches are
empty and stay quiet. -/
def example_env : Env :=
  { android := false
    create_uuid := "fresh-uuid"
    get_media_info_sync := fun _ => none
    get_user_info_sync := fun _ => none
    get_bookmark_details_sync := fun _ => none
    react := fun _ => { mediamodified := none, throws := none } }

/-- A tab used in the examples, with the given tab ID and tiebreaker, on the example
page, with nothing sent so far. -/
def example_tab (tab_id : String) (tab_id_tiebreaker : Nat) : World :=
  { send_image :=
      { tab_id := tab_id
        tab_id_tiebreaker := tab_id_tiebreaker
        pending_movement := (JSNumber.whole 0, JSNumber.whole 0)
        last_movement_message_time := none
        handling_broadcasted_image_info := false }
    page := VirtualHistory.example_page
    localStorage_ppixivTabId := none
    sessionStorage_ppixivTabId := some tab_id
    linked_tabs_enabled := false
    linked_tabs := []
    posted := []
    delivered_to_self := []
    dispatched := []
    cache_calls := []
    app_calls := [] }

end SendImage

namespace Actions

/-- An environment used in the examples: every media ID is a site image with the illust
ID "123", an edit of a bookmark is answered without a new bookmark ID, and the bookmark
details hold the tag "a". -/
def example_env : ActionsEnv :=
  { is_media_id_local := fun _ => false
    media_id_to_illust_id := fun _ => "123"
    media_id_type := fun _ => "illust"
    last_bookmark_id := fun _ => none
    get_media_info_sync := fun _ => false
    load_bookmark_details := fun _ => ["a"]
    local_post_request := fun _ =>
      { success := false, reason := "", bookmark := { id := "", private_ := false }, tags := [] } }

/-- A state used in the examples: the image "illust:123" has the public bookmark "b1"
with the tag "a", nothing has been sent, and the setting is as given. -/
def example_world (bookmark_privately_by_default : Bool) : ActionsWorld :=
  { bookmark_privately_by_default := bookmark_privately_by_default
    bookmarkData := fun id =>
      if id = "illust:123" then some { id := "b1", private_ := false } else none
    bookmark_tags := fun id => if id = "illust:123" then some ["a"] else none
    requests := []
    like_image_calls := []
    recent_bookmark_tags := []
    bookmark_details_loads := []
    bookmark_count_increments := []
    shown := []
    events := []
    illust_modified_callbacks := [] }

end Actions

namespace SendImage

/-- One call of `send_mouse_movement_to_linked_tabs(x, y)`, with what its two calls of
`Date.now()` return. -/
structure MouseCall where
  x : JSNumber
  y : JSNumber
  now_compared : Nat
  now_stored : Nat
  deriving DecidableEq, Repr

/-- The exact value of a finite number in units of 2^-1074, and 0 for what is not
finite. -/
def units (n : JSNumber) : Int :=
  match n with
  | JSNumber.finite u => u
  | _ => 0

/-- Whether `a + b` is computed without rounding: both numbers are finite and the double
that `+` gives is their exact sum. -/
def exact_sum (a b : JSNumber) : Bool :=
  match a, b with
  | JSNumber.finite u, JSNumber.finite v => JSNumber.add a b == JSNumber.finite (u + v)
  | _, _ => false

/-- The preview-mouse-movement messages a tab has posted, oldest first. -/
def mouse_movement_messages (w : World) : List Message :=
  w.posted.filter (fun m => m.message == "preview-mouse-movement")

/-- The exact sum, in units of 2^-1074, of the `x` fields of the preview-mouse-movement
messages posted so far. -/
def sent_x (w : World) : Int :=
  ((mouse_movement_messages w).map (fun m => units (m.x.getD (JSNumber.whole 0)))).sum

/-- The exact sum, in units of 2^-1074, of the `y` fields of the preview-mouse-movement
messages posted so far. -/
def sent_y (w : World) : Int :=
  ((mouse_movement_messages w).map (fun m => units (m.y.getD (JSNumber.whole 0)))).sum

/-- A sequence of calls of `send_mouse_movement_to_linked_tabs`, run in order: the tab
afterwards, and for each call that posted a message the time it stored, oldest first. -/
def run_mouse_calls (w : World) : List MouseCall → World × List Nat
  | [] => (w, [])
  | c :: rest =>
    let w1 := send_mouse_movement_to_linked_tabs w c.x c.y c.now_compared c.now_stored
    let r := run_mouse_calls w1 rest
    (r.1, (if w1.posted.length != w.posted.length then [c.now_stored] else []) ++ r.2)

/-- Whether every addition `pending_movement[i] += ...` of a sequence of calls is computed
without rounding. -/
def additions_exact (w : World) : List MouseCall → Bool
  | [] => true
  | c :: rest =>
    exact_sum w.send_image.pending_movement.1 c.x &&
      exact_sum w.send_image.pending_movement.2 c.y &&
      additions_exact
        (send_mouse_movement_to_linked_tabs w c.x c.y c.now_compared c.now_stored) rest

/-- The call of `send_mouse_movement_to_linked_tabs` with the whole numbers `move.1` and
`move.2.1` as x and y, `Date.now()` returning `move.2.2.1` and then `move.2.2.2`. -/
def whole_call (move : Int × Int × Nat × Nat) : MouseCall :=
  { x := JSNumber.whole move.1
    y := JSNumber.whole move.2.1
    now_compared := move.2.2.1
    now_stored := move.2.2.2 }

/-- The tab `after` has posted what the tab `before` had posted and possibly more, and
has had the same messages delivered to itself. -/
def posts_more (before after : World) : Prop :=
  (∃ rest, after.posted = before.posted ++ rest) ∧
    after.delivered_to_self = before.delivered_to_self

/-- The image-info message `broadcast_image_info` sends for an image. -/
def image_info_message (env : Env) (w : World) (media_id : String) : Message :=
  { message := "image-info"
    from_ := some w.send_image.tab_id
    media_id := some media_id
    media_info := env.get_media_info_sync media_id
    bookmark_tags := env.get_bookmark_details_sync media_id
    user_info :=
      if truthy ((env.get_media_info_sync media_id).bind MediaInfo.userId) then
        env.get_user_info_sync (((env.get_media_info_sync media_id).bind MediaInfo.userId).getD "")
      else none
    origin := some w.page.window.origin }

/-- An environment used in the examples whose caches fire `mediamodified` for "illust:1"
on every update, and throw when the bookmark tags are updated. -/
def example_env_firing : Env :=
  { example_env with
    react := fun c =>
      match c with
      | CacheCall.update_cached_bookmark_image_tags _ _ =>
        { mediamodified := some "illust:1", throws := some JSError.TypeError }
      | _ => { mediamodified := some "illust:1", throws := none } }

/-- A tab used in the examples with the tab "tab-b" linked. -/
def example_linked_tab : World :=
  { example_tab "tab-a" 10 with linked_tabs_enabled := true, linked_tabs := ["tab-b"] }

/-- Calls used in the examples: whole movements (3, 1), (2, 2) and (4, -1) at the times
100, 105 and 112. -/
def example_calls : List MouseCall :=
  [{ x := JSNumber.whole 3, y := JSNumber.whole 1, now_compared := 100, now_stored := 100 },
   { x := JSNumber.whole 2, y := JSNumber.whole 2, now_compared := 105, now_stored := 105 },
   { x := JSNumber.whole 4, y := JSNumber.whole (-1), now_compared := 112, now_stored := 112 }]

/-- Calls used in the examples: the movements 1, 2^53, 1 and 0 along x at the times 100,
105, 109 and 110. -/
def example_calls_rounding : List MouseCall :=
  [{ x := JSNumber.whole 1, y := JSNumber.whole 0, now_compared := 100, now_stored := 100 },
   { x := JSNumber.whole (2 ^ 53), y := JSNumber.whole 0, now_compared := 105, now_stored := 105 },
   { x := JSNumber.whole 1, y := JSNumber.whole 0, now_compared := 109, now_stored := 109 },
   { x := JSNumber.whole 0, y := JSNumber.whole 0, now_compared := 110, now_stored := 110 }]

/-- Calls used in the examples: two movements of 1 along x, the first at the time 100, the
second with the clock at 110 when it is compared and set back to 105 when it is stored. -/
def example_calls_clock_set_back : List MouseCall :=
  [{ x := JSNumber.whole 1, y := JSNumber.whole 0, now_compared := 100, now_stored := 100 },
   { x := JSNumber.whole 1, y := JSNumber.whole 0, now_compared := 110, now_stored := 105 }]

end SendImage

namespace view_illust

/-- An environment used in the examples: `clamp` is the usual one, the hash has no page,
so that "1" is the one text converted to a number, and of the texts the spellings of the
whole number 1 are taken for the number 1; nothing has thumbnail info and nothing is
muted. -/
def example_env : ViewEnv :=
  { clamp := fun value lo hi => min (max value lo) hi
    hash_page := none
    is_number_one := fun text => text.trim.toInt? == some 1
    has_thumbnail_info := fun _ => false
    thumbnail_muted := fun _ => false
    muted := fun _ => false
    get_neighboring_illust_id := fun _ _ => none }

/-- An image with three pages used in the examples. -/
def example_illust : IllustData :=
  { pageCount := 3, illustType := 0 }

end view_illust

/-! ## Properties of VirtualHistory -/

namespace VirtualHistory

/-- Updating the browser state leaves the `VirtualHistory` object as it is. -/
theorem update_browser_state_phistory (p : Page) :
    (_update_browser_state p).phistory = p.phistory := by
  unfold _update_browser_state
  split
  · rfl
  · split
    · split <;> rfl
    · rfl

/-- Updating the browser state does not change `ppixiv.mobile`. -/
theorem update_browser_state_mobile (p : Page) :
    (_update_browser_state p).mobile = p.mobile := by
  unfold _update_browser_state
  split
  · rfl
  · split
    · split <;> rfl
    · rfl

/-- No call of `pushState` changes `ppixiv.mobile`. -/
theorem pushState_mobile (p : Page) (state : JSValue) (title : String) (url : URL) :
    (pushState p state title url).page.mobile = p.mobile := by
  unfold pushState
  dsimp only
  split_ifs <;> simp [update_browser_state_mobile]

/-- No call of `replaceState` changes `ppixiv.mobile`. -/
theorem replaceState_mobile (p : Page) (state : JSValue) (title : String) (url : URL) :
    (replaceState p state title url).page.mobile = p.mobile := by
  unfold replaceState
  dsimp only
  split_ifs
  · rfl
  · rfl
  · rw [pushState_mobile]
  · split <;> rfl
  · simp [update_browser_state_mobile]

/-- No call of `back` changes `ppixiv.mobile`. -/
theorem back_mobile (p : Page) : (back p).mobile = p.mobile := by
  unfold back
  dsimp only
  split_ifs <;> simp [update_browser_state_mobile, broadcast_popstate]

/-- The setter `state` does not change `ppixiv.mobile`. -/
theorem set_state_mobile (p : Page) (value : JSValue) :
    (set_state p value).page.mobile = p.mobile := by
  unfold set_state
  dsimp only
  split_ifs
  · rfl
  · split <;> rfl
  · rfl
  · split <;> rfl

/-- A call of `pushState` never leaves the history stack empty in permanent mode. -/
theorem pushState_history_ne_nil (p : Page) (state : JSValue) (title : String) (url : URL)
    (hne : p.phistory.history ≠ []) :
    (pushState p state title url).page.phistory.history ≠ [] := by
  unfold pushState
  dsimp only
  split_ifs <;> simp [update_browser_state_phistory, hne]

/-- In permanent mode the history stack of a reachable page is never empty: the
constructor pushes the first entry and nothing removes the last one. -/
theorem reachable_history_ne_nil {p : Page} (hr : Reachable p) :
    permanent p = true → p.phistory.history ≠ [] := by
  induction hr with
  | constructor mobile window =>
    intro h
    simp [permanent, constructor] at h
    simp [constructor, h]
  | @pushState p state title url _ ih =>
    intro h
    have hm : permanent p = true := by
      simpa [permanent, pushState_mobile] using h
    exact pushState_history_ne_nil p state title url (ih hm)
  | @replaceState p state title url _ ih =>
    intro h
    have hm : permanent p = true := by
      simpa [permanent, replaceState_mobile] using h
    have hne := ih hm
    unfold replaceState
    dsimp only
    split_ifs
    · exact hne
    · exact hne
    · exact pushState_history_ne_nil _ state title url (by simpa using hne)
    · split <;> exact hne
    · simp [update_browser_state_phistory]
  | @back p _ ih =>
    intro h
    have hm : permanent p = true := by
      simpa [permanent, back_mobile] using h
    have hne := ih hm
    unfold back
    dsimp only
    split_ifs with h1 h2 h3
    · simpa [broadcast_popstate] using hne
    · exact hne
    · exact hne
    · simp only [update_browser_state_phistory, broadcast_popstate]
      intro hnil
      have hlen : p.phistory.history.length = 1 := by
        have := congrArg List.length hnil
        simp at this
        have hpos : 0 < p.phistory.history.length := List.length_pos.mpr hne
        omega
      simp [hlen] at h3
  | @set_state p value _ ih =>
    intro h
    have hm : permanent p = true := by
      simpa [permanent, set_state_mobile] using h
    have hne := ih hm
    unfold set_state
    dsimp only
    split_ifs
    · exact hne
    · split
      · simp
      · exact hne
    · exact hne
    · split
      · simp
      · exact hne
  | browser window _ ih => exact ih

/-- C4: in permanent mode, from a non-virtual state (whose stack is non-empty, as it
always is in permanent mode), pushState with a virtual URL does not throw, leaves the
history stack and the window untouched and makes plocation return the virtual URL; the
back() that follows clears the virtual URL, plocation then returns the URL of the latest
real history entry, and the history stack and the calls made on the real `window.history`
are still those from before the push. -/
theorem C4_virtual_preview_keeps_history (p : Page) (state : JSValue) (title : String) (url : URL)
    (hperm : permanent p = true) (hreal : virtual p = false)
    (hvirt : truthy (url_is_virtual url) = true) (hne : p.phistory.history ≠ []) :
    (pushState p state title url).thrown = none ∧
    (pushState p state title url).page.phistory.history = p.phistory.history ∧
    (pushState p state title url).page.window = p.window ∧
    plocation (pushState p state title url).page = Except.ok url ∧
    (back (pushState p state title url).page).phistory.virtual_url = none ∧
    plocation (back (pushState p state title url).page) =
      Except.ok (p.phistory.history.getLast hne).url ∧
    (back (pushState p state title url).page).phistory.history = p.phistory.history ∧
    (back (pushState p state title url).page).window.history_calls = p.window.history_calls := by
  have hnone : p.phistory.virtual_url = none := by
    simpa [virtual] using hreal
  have hperm2 : p.mobile = true := hperm
  have hlast : p.phistory.history.getLast? = some (p.phistory.history.getLast hne) :=
    List.getLast?_eq_getLast _ hne
  simp [pushState, hvirt, hnone, plocation, back, broadcast_popstate, permanent, hperm2,
    _latest_history, hlast]

/-- C4 at a concrete page: a preview pushed on the example page and backed out of. -/
theorem C4_virtual_preview_keeps_history_witness :
    (pushState example_page JSValue.null "" example_virtual_url).thrown = none ∧
    (pushState example_page JSValue.null "" example_virtual_url).page.phistory.history =
      example_page.phistory.history ∧
    (pushState example_page JSValue.null "" example_virtual_url).page.window = example_page.window ∧
    plocation (pushState example_page JSValue.null "" example_virtual_url).page =
      Except.ok example_virtual_url ∧
    (back (pushState example_page JSValue.null "" example_virtual_url).page).phistory.virtual_url
      = none ∧
    plocation (back (pushState example_page JSValue.null "" example_virtual_url).page) =
      Except.ok (example_page.phistory.history.getLast (by decide)).url ∧
    (back (pushState example_page JSValue.null "" example_virtual_url).page).phistory.history =
      example_page.phistory.history ∧
    (back (pushState example_page JSValue.null "" example_virtual_url).page).window.history_calls =
      example_page.window.history_calls :=
  C4_virtual_preview_keeps_history example_page JSValue.null "" example_virtual_url
    (by decide) (by decide) (by decide) (by decide)

/-- C5: whenever a virtual URL is already active, pushState with a virtual URL throws
Error("Can't push a second virtual location") and leaves the whole page, so also
virtual_url, virtual_state and the history stack, unchanged. -/
theorem C5_pushState_second_virtual_throws (p : Page) (state : JSValue) (title : String)
    (url : URL) (hactive : virtual p = true) (hvirt : truthy (url_is_virtual url) = true) :
    (pushState p state title url).thrown =
      some (JSError.Error "Can't push a second virtual location") ∧
    (pushState p state title url).page = p := by
  have hsome : p.phistory.virtual_url.isSome = true := hactive
  simp [pushState, hvirt, hsome]

/-- C5 at a concrete page: a second preview pushed on top of a first one. -/
theorem C5_pushState_second_virtual_throws_witness :
    (pushState (pushState example_page JSValue.null "" example_virtual_url).page
        (JSValue.data "2") "" example_virtual_url2).thrown =
      some (JSError.Error "Can't push a second virtual location") ∧
    (pushState (pushState example_page JSValue.null "" example_virtual_url).page
        (JSValue.data "2") "" example_virtual_url2).page =
      (pushState example_page JSValue.null "" example_virtual_url).page :=
  C5_pushState_second_virtual_throws
    (pushState example_page JSValue.null "" example_virtual_url).page
    (JSValue.data "2") "" example_virtual_url2 (by decide) (by decide)

/-- C6: replaceState with a virtual URL throws Error("Can't replace a real history entry
with a virtual one") and leaves the whole page unchanged when no virtual URL is active;
when one is active it does not throw and changes nothing but virtual_url, which becomes
the new URL, so the history stack is unchanged. -/
theorem C6_replaceState_virtual (p : Page) (state : JSValue) (title : String) (url : URL)
    (hvirt : truthy (url_is_virtual url) = true) :
    (virtual p = false →
      (replaceState p state title url).thrown =
        some (JSError.Error "Can't replace a real history entry with a virtual one") ∧
      (replaceState p state title url).page = p) ∧
    (virtual p = true →
      (replaceState p state title url).thrown = none ∧
      (replaceState p state title url).page =
        { p with phistory := { p.phistory with virtual_url := some url } } ∧
      (replaceState p state title url).page.phistory.history = p.phistory.history) := by
  constructor
  · intro hreal
    have hnone : p.phistory.virtual_url = none := by
      simpa [virtual] using hreal
    simp [replaceState, hvirt, hnone]
  · intro hactive
    have hsome : p.phistory.virtual_url.isSome = true := hactive
    have hnot : p.phistory.virtual_url.isNone = false := by
      cases h : p.phistory.virtual_url <;> simp_all
    simp [replaceState, hvirt, hnot]

/-- C6 at concrete pages: the example page for the refusal, the example page with a
preview pushed for the replacement. -/
theorem C6_replaceState_virtual_witness :
    ((replaceState example_page JSValue.null "" example_virtual_url).thrown =
        some (JSError.Error "Can't replace a real history entry with a virtual one") ∧
      (replaceState example_page JSValue.null "" example_virtual_url).page = example_page) ∧
    ((replaceState (pushState example_page JSValue.null "" example_virtual_url).page
        JSValue.null "" example_virtual_url2).thrown = none ∧
      (replaceState (pushState example_page JSValue.null "" example_virtual_url).page
        JSValue.null "" example_virtual_url2).page =
        { (pushState example_page JSValue.null "" example_virtual_url).page with
          phistory :=
            { (pushState example_page JSValue.null "" example_virtual_url).page.phistory with
              virtual_url := some example_virtual_url2 } } ∧
      (replaceState (pushState example_page JSValue.null "" example_virtual_url).page
        JSValue.null "" example_virtual_url2).page.phistory.history =
        (pushState example_page JSValue.null "" example_virtual_url).page.phistory.history) :=
  ⟨(C6_replaceState_virtual example_page JSValue.null "" example_virtual_url (by decide)).1
      (by decide),
    (C6_replaceState_virtual (pushState example_page JSValue.null "" example_virtual_url).page
      JSValue.null "" example_virtual_url2 (by decide)).2 (by decide)⟩

/-- C7: in permanent mode, replaceState with a real URL while a virtual location is
active does not throw, appends the one entry (state, url) to the history stack, every
earlier entry staying in place, and leaves the state non-virtual; with no virtual location
active (and the stack non-empty, as it always is in permanent mode) it does not throw,
keeps the length of the stack and replaces the last entry only. -/
theorem C7_replaceState_real (p : Page) (state : JSValue) (title : String) (url : URL)
    (hperm : permanent p = true) (hrealurl : truthy (url_is_virtual url) = false) :
    (virtual p = true →
      (replaceState p state title url).thrown = none ∧
      (replaceState p state title url).page.phistory.history =
        p.phistory.history ++ [{ state := state, url := url }] ∧
      virtual (replaceState p state title url).page = false) ∧
    (virtual p = false → p.phistory.history ≠ [] →
      (replaceState p state title url).thrown = none ∧
      (replaceState p state title url).page.phistory.history.length =
        p.phistory.history.length ∧
      (replaceState p state title url).page.phistory.history =
        p.phistory.history.dropLast ++ [{ state := state, url := url }] ∧
      virtual (replaceState p state title url).page = false) := by
  have hperm2 : p.mobile = true := hperm
  constructor
  · intro hactive
    have hsome : p.phistory.virtual_url.isSome = true := hactive
    simp [replaceState, pushState, hrealurl, hsome, permanent, hperm2,
      update_browser_state_phistory, virtual]
  · intro hreal hne
    have hnone : p.phistory.virtual_url = none := by
      simpa [virtual] using hreal
    have hpos : 0 < p.phistory.history.length := List.length_pos.mpr hne
    simp [replaceState, hrealurl, hnone, permanent, hperm2, update_browser_state_phistory,
      virtual]
    omega

/-- C7 at concrete pages: a real URL replacing a pushed preview, and a real URL replacing
the only entry of the example page. -/
theorem C7_replaceState_real_witness :
    ((replaceState (pushState example_page JSValue.null "" example_virtual_url).page
        (JSValue.data "1") "" example_real_url).thrown = none ∧
      (replaceState (pushState example_page JSValue.null "" example_virtual_url).page
        (JSValue.data "1") "" example_real_url).page.phistory.history =
        (pushState example_page JSValue.null "" example_virtual_url).page.phistory.history ++
          [{ state := JSValue.data "1", url := example_real_url }] ∧
      virtual (replaceState (pushState example_page JSValue.null "" example_virtual_url).page
        (JSValue.data "1") "" example_real_url).page = false) ∧
    ((replaceState example_page (JSValue.data "1") "" example_real_url).thrown = none ∧
      (replaceState example_page (JSValue.data "1") "" example_real_url).page.phistory.history.length
        = example_page.phistory.history.length ∧
      (replaceState example_page (JSValue.data "1") "" example_real_url).page.phistory.history =
        example_page.phistory.history.dropLast ++
          [{ state := JSValue.data "1", url := example_real_url }] ∧
      virtual (replaceState example_page (JSValue.data "1") "" example_real_url).page = false) :=
  ⟨(C7_replaceState_real (pushState example_page JSValue.null "" example_virtual_url).page
      (JSValue.data "1") "" example_real_url (by decide) (by decide)).1 (by decide),
    (C7_replaceState_real example_page (JSValue.data "1") "" example_real_url
      (by decide) (by decide)).2 (by decide) (by decide)⟩

/-- C8: in permanent mode, for every non-virtual state (whose stack is non-empty, as it
always is in permanent mode), pushState with a non-virtual URL does not throw and the
back() that follows yields the history stack from before the push; and back() on a stack
with a single entry leaves the stack unchanged. -/
theorem C8_push_then_back (p : Page) (hperm : permanent p = true) :
    (virtual p = false → p.phistory.history ≠ [] →
      ∀ (state : JSValue) (title : String) (url : URL), truthy (url_is_virtual url) = false →
        (pushState p state title url).thrown = none ∧
        (back (pushState p state title url).page).phistory.history = p.phistory.history) ∧
    (p.phistory.history.length = 1 → (back p).phistory.history = p.phistory.history) := by
  have hperm2 : p.mobile = true := hperm
  constructor
  · intro hreal hne state title url hrealurl
    have hnone : p.phistory.virtual_url = none := by
      simpa [virtual] using hreal
    have hpos : 0 < p.phistory.history.length := List.length_pos.mpr hne
    have hlen : ¬ (p.phistory.history.length + 1 = 1) := by omega
    simp [pushState, hrealurl, permanent, hperm2, back, update_browser_state_phistory,
      update_browser_state_mobile, hnone, broadcast_popstate, hlen, hne]
  · intro hlen
    unfold back
    dsimp only
    split_ifs with h1 h2 h3
    · simp [broadcast_popstate]
    · rfl
    · rfl
    · simp [hlen] at h3

/-- C8 at the example page: a real entry pushed and popped, and back() on its single
entry. -/
theorem C8_push_then_back_witness :
    ((pushState example_page (JSValue.data "1") "" example_real_url).thrown = none ∧
      (back (pushState example_page (JSValue.data "1") "" example_real_url).page).phistory.history
        = example_page.phistory.history) ∧
    (back example_page).phistory.history = example_page.phistory.history :=
  ⟨(C8_push_then_back example_page (by decide)).1 (by decide) (by decide)
      (JSValue.data "1") "" example_real_url (by decide),
    (C8_push_then_back example_page (by decide)).2 (by decide)⟩

/-- In permanent mode a pushState that returns leaves the `state` getter at the pushed
state and plocation at the pushed URL. -/
theorem pushState_state_contract (p : Page) (state1 : JSValue) (title : String) (url : URL)
    (hperm : permanent p = true)
    (hok : (pushState p state1 title url).thrown = none) :
    state (pushState p state1 title url).page = Except.ok state1 ∧
    plocation (pushState p state1 title url).page = Except.ok url := by
  have hperm2 : p.mobile = true := hperm
  unfold pushState at hok ⊢
  dsimp only at hok ⊢
  split_ifs at hok ⊢ with h1 h2 h3
  · simp [state, virtual, plocation]
  · simp [permanent, hperm2] at h3
  · simp [state, virtual, plocation, update_browser_state_phistory, update_browser_state_mobile,
      permanent, hperm2, _latest_history]

/-- In permanent mode a replaceState with a real URL that returns leaves the `state`
getter at the new state and plocation at the new URL. -/
theorem replaceState_real_state_contract (p : Page) (state1 : JSValue) (title : String)
    (url : URL) (hperm : permanent p = true) (hrealurl : truthy (url_is_virtual url) = false)
    (hok : (replaceState p state1 title url).thrown = none) :
    state (replaceState p state1 title url).page = Except.ok state1 ∧
    plocation (replaceState p state1 title url).page = Except.ok url := by
  have hperm2 : p.mobile = true := hperm
  by_cases hactive : p.phistory.virtual_url.isSome = true
  · have hrw : replaceState p state1 title url =
        pushState { p with phistory := { p.phistory with virtual_url := none } } state1 title url := by
      simp [replaceState, hrealurl, hactive]
    rw [hrw] at hok ⊢
    exact pushState_state_contract _ state1 title url hperm hok
  · have hnone : p.phistory.virtual_url = none := by
      simpa using hactive
    simp [replaceState, hrealurl, hnone, state, virtual, plocation, update_browser_state_phistory,
      update_browser_state_mobile, permanent, hperm2, _latest_history]

/-- C9: the code at an input where the claimed contract fails.  In permanent mode, with a
preview pushed with state "A", replaceState("B", "", url2) for a virtual url2 returns
without throwing and plocation returns url2, but the `state` getter still returns "A":
the virtual branch of replaceState assigns virtual_url and not virtual_state. -/
theorem C9_replaceState_virtual_keeps_old_state :
    permanent (pushState example_page (JSValue.data "A") "" example_virtual_url).page = true ∧
    (replaceState (pushState example_page (JSValue.data "A") "" example_virtual_url).page
      (JSValue.data "B") "" example_virtual_url2).thrown = none ∧
    plocation (replaceState (pushState example_page (JSValue.data "A") "" example_virtual_url).page
      (JSValue.data "B") "" example_virtual_url2).page = Except.ok example_virtual_url2 ∧
    state (replaceState (pushState example_page (JSValue.data "A") "" example_virtual_url).page
      (JSValue.data "B") "" example_virtual_url2).page = Except.ok (JSValue.data "A") ∧
    state (replaceState (pushState example_page (JSValue.data "A") "" example_virtual_url).page
      (JSValue.data "B") "" example_virtual_url2).page ≠ Except.ok (JSValue.data "B") := by
  decide

end VirtualHistory

/-! ## Properties of SendImage -/

namespace SendImage

/-- What `broadcast_tab_info` does: it posts the tab-info message of the tab and changes
nothing else. -/
theorem broadcast_tab_info_eq (w : World) :
    broadcast_tab_info w = { w with posted := w.posted ++ [tab_info_message w] } := by
  simp [broadcast_tab_info, send_message_to_channel, tab_info_message]

/-- The ID made by `create_tab_id(true)` is the next UUID. -/
theorem create_tab_id_recreate (env : Env) (w : World) :
    (create_tab_id env w true).1 = env.create_uuid := by
  unfold create_tab_id
  dsimp only
  split_ifs <;> simp_all

/-- Sending a message dispatches nothing on `messages`. -/
theorem send_message_dispatched (w : World) (data : Message) :
    (send_message_to_channel w data).1.dispatched = w.dispatched := by
  rfl

/-- The listener for `mediamodified` dispatches nothing on `messages`. -/
theorem broadcast_illust_changes_dispatched (env : Env) (w : World) (media_id : String) :
    (broadcast_illust_changes env w media_id).dispatched = w.dispatched := by
  unfold broadcast_illust_changes broadcast_image_info
  dsimp only
  split_ifs <;> rfl

/-- An updating cache call dispatches nothing on `messages`. -/
theorem cache_call_dispatched (env : Env) (w : World) (c : CacheCall) :
    (cache_call env w c).world.dispatched = w.dispatched := by
  unfold cache_call
  dsimp only
  split
  · rw [broadcast_illust_changes_dispatched]
  · rfl

/-- Two steps that each keep the events on `messages` keep them together. -/
theorem andThen_dispatched (h : Handled) (next : World → Handled) (d : List Message)
    (hh : h.world.dispatched = d)
    (hn : ∀ w, w.dispatched = d → (next w).world.dispatched = d) :
    (andThen h next).world.dispatched = d := by
  unfold andThen
  split
  · exact hh
  · exact hn _ hh

/-- The `"tab-info"` branch dispatches nothing on `messages`. -/
theorem received_tab_info_dispatched (env : Env) (w : World) (data : Message) :
    (received_tab_info env w data).world.dispatched = w.dispatched := by
  unfold received_tab_info
  dsimp only
  split_ifs
  · simp only [broadcast_tab_info_eq, recreate_tab_id, create_tab_id]
    split_ifs <;> simp_all
  · simp [broadcast_tab_info_eq]
  · rfl

/-- The `"send-image"` branch dispatches nothing on `messages`. -/
theorem received_send_image_dispatched (env : Env) (w : World) (data : Message) :
    (received_send_image env w data).world.dispatched = w.dispatched := by
  unfold received_send_image
  dsimp only
  apply andThen_dispatched
  · split_ifs
    · apply andThen_dispatched
      · split
        · rw [cache_call_dispatched]
        · rfl
      · intro w1 hw1
        split
        · rw [cache_call_dispatched, hw1]
        · exact hw1
    · rfl
  · intro w1 hw1
    split_ifs
    · split
      · exact hw1
      · exact hw1
    · simp only [hide_preview_image]
      split_ifs
      · exact hw1
      · exact hw1
    · exact hw1

/-- The `"image-info"` branch dispatches nothing on `messages`. -/
theorem received_image_info_dispatched (env : Env) (w : World) (data : Message) :
    (received_image_info env w data).world.dispatched = w.dispatched := by
  unfold received_image_info
  dsimp only
  split_ifs
  · rfl
  · show (andThen _ _).world.dispatched = w.dispatched
    apply andThen_dispatched
    · split
      · rw [cache_call_dispatched]
      · rfl
    · intro w2 hw2
      apply andThen_dispatched
      · split
        · rw [cache_call_dispatched, hw2]
        · exact hw2
      · intro w3 hw3
        split
        · rw [cache_call_dispatched, hw3]
        · exact hw3

/-- The tab ID after a tab-info message that is addressed to the tab and comes from its
own ID: the next UUID if the comparison of the tiebreakers says so, the old ID otherwise. -/
theorem received_message_tab_info_tab_id (env : Env) (w : World) (data : Message)
    (hmsg : data.message = "tab-info")
    (hfrom : data.from_ = some w.send_image.tab_id)
    (haddr : for_another_tab w data = false) :
    (received_message env w data).world.send_image.tab_id =
      if tiebreaker_ge w data then env.create_uuid else w.send_image.tab_id := by
  have hrec : received_message env w data =
      received_tab_info env { w with dispatched := w.dispatched ++ [data] } data := by
    simp [received_message, haddr, hmsg]
  have htb : tiebreaker_ge { w with dispatched := w.dispatched ++ [data] } data =
      tiebreaker_ge w data := rfl
  rw [hrec]
  unfold received_tab_info
  simp only [hfrom, beq_self_eq_true, if_true, htb]
  split_ifs
  · simp [broadcast_tab_info_eq, recreate_tab_id, create_tab_id_recreate]
  · simp [broadcast_tab_info_eq]

/-- On a "tab-info" message that passes the addressing test and whose `from` equals the
tab ID of the receiver, the handler does not throw; if the tiebreaker of the receiver is
strictly larger than that of the message the receiver takes the ID made by
create_tab_id(true), the next UUID; if it is strictly smaller the receiver keeps its tab
ID; and in every case the tiebreaker is kept and exactly one message is posted, the
tab-info message carrying the tab ID the receiver now has and its own tiebreaker. -/
theorem tab_info_conflict_when_addressed (env : Env) (w : World) (data : Message)
    (hmsg : data.message = "tab-info")
    (hfrom : data.from_ = some w.send_image.tab_id)
    (haddr : for_another_tab w data = false) :
    (received_message env w data).thrown = none ∧
    (∀ theirs, data.tab_id_tiebreaker = some theirs → theirs < w.send_image.tab_id_tiebreaker →
      (received_message env w data).world.send_image.tab_id = (create_tab_id env w true).1 ∧
      (received_message env w data).world.send_image.tab_id = env.create_uuid) ∧
    (∀ theirs, data.tab_id_tiebreaker = some theirs → w.send_image.tab_id_tiebreaker < theirs →
      (received_message env w data).world.send_image.tab_id = w.send_image.tab_id) ∧
    (received_message env w data).world.send_image.tab_id_tiebreaker =
      w.send_image.tab_id_tiebreaker ∧
    (received_message env w data).world.posted =
      w.posted ++ [tab_info_message (received_message env w data).world] := by
  have hrec : received_message env w data =
      received_tab_info env { w with dispatched := w.dispatched ++ [data] } data := by
    simp [received_message, haddr, hmsg]
  rw [hrec]
  unfold received_tab_info
  simp only [hfrom, beq_self_eq_true, if_true]
  have hid : ∀ w0 : World, (create_tab_id env w0 true).1 = env.create_uuid :=
    create_tab_id_recreate env
  have hkeep : ∀ w0 : World,
      (create_tab_id env w0 true).2.send_image = w0.send_image ∧
      (create_tab_id env w0 true).2.posted = w0.posted := by
    intro w0
    unfold create_tab_id
    dsimp only
    split_ifs <;> exact ⟨rfl, rfl⟩
  by_cases hge : tiebreaker_ge { w with dispatched := w.dispatched ++ [data] } data = true
  · rw [if_pos hge]
    refine ⟨trivial, ?_, ?_, ?_, ?_⟩
    · intro theirs _ _
      simp [broadcast_tab_info_eq, recreate_tab_id, hid]
    · intro theirs ht hlt
      simp [tiebreaker_ge, ht] at hge
      omega
    · simp [broadcast_tab_info_eq, recreate_tab_id, (hkeep _).1]
    · simp [broadcast_tab_info_eq, recreate_tab_id, (hkeep _).2, tab_info_message]
  · rw [if_neg hge]
    refine ⟨trivial, ?_, ?_, ?_, ?_⟩
    · intro theirs ht hlt
      simp [tiebreaker_ge, ht] at hge
      omega
    · intro theirs _ _
      simp [broadcast_tab_info_eq]
    · simp [broadcast_tab_info_eq]
    · simp [broadcast_tab_info_eq, tab_info_message]

/-- C1: a tab receives the tab-info message that a tab with the same tab ID broadcasts (a
"tab-info" message whose `from` equals the tab ID of the receiver; broadcast_tab_info,
which builds these messages, gives them no `to`).  The handler does not throw; if the
tiebreaker of the receiver is strictly larger than that of the message the receiver
recreates its tab ID, taking the ID made by create_tab_id(true), the next UUID; if it is
strictly smaller the receiver keeps its tab ID; and in both cases, and on a tie, the
receiver keeps its tiebreaker and posts exactly one message, the tab-info message carrying
the tab ID it now has and its own tiebreaker. -/
theorem C1_tab_info_conflict (env : Env) (w sender : World)
    (hfrom : (tab_info_message sender).from_ = some w.send_image.tab_id) :
    (broadcast_tab_info sender).posted = sender.posted ++ [tab_info_message sender] ∧
    (received_message env w (tab_info_message sender)).thrown = none ∧
    (sender.send_image.tab_id_tiebreaker < w.send_image.tab_id_tiebreaker →
      (received_message env w (tab_info_message sender)).world.send_image.tab_id =
        (create_tab_id env w true).1 ∧
      (received_message env w (tab_info_message sender)).world.send_image.tab_id =
        env.create_uuid) ∧
    (w.send_image.tab_id_tiebreaker < sender.send_image.tab_id_tiebreaker →
      (received_message env w (tab_info_message sender)).world.send_image.tab_id =
        w.send_image.tab_id) ∧
    (received_message env w (tab_info_message sender)).world.send_image.tab_id_tiebreaker =
      w.send_image.tab_id_tiebreaker ∧
    (received_message env w (tab_info_message sender)).world.posted =
      w.posted ++ [tab_info_message (received_message env w (tab_info_message sender)).world] := by
  obtain ⟨hthrown, hlarger, hsmaller, htie, hposted⟩ :=
    tab_info_conflict_when_addressed env w (tab_info_message sender) rfl hfrom rfl
  refine ⟨by rw [broadcast_tab_info_eq], hthrown, ?_, ?_, htie, hposted⟩
  · intro hlt
    exact hlarger sender.send_image.tab_id_tiebreaker rfl hlt
  · intro hlt
    exact hsmaller sender.send_image.tab_id_tiebreaker rfl hlt

/-- C1 at concrete tabs: "tab-a" with tiebreaker 10 receiving the tab-info of a tab with
the same ID and tiebreaker 5, and of one with tiebreaker 20. -/
theorem C1_tab_info_conflict_witness :
    ((received_message example_env (example_tab "tab-a" 10)
        (tab_info_message (example_tab "tab-a" 5))).world.send_image.tab_id = "fresh-uuid" ∧
      (received_message example_env (example_tab "tab-a" 10)
        (tab_info_message (example_tab "tab-a" 5))).world.posted =
        [{ message := "tab-info", from_ := some "fresh-uuid", tab_id_tiebreaker := some 10 }]) ∧
    ((received_message example_env (example_tab "tab-a" 10)
        (tab_info_message (example_tab "tab-a" 20))).world.send_image.tab_id = "tab-a" ∧
      (received_message example_env (example_tab "tab-a" 10)
        (tab_info_message (example_tab "tab-a" 20))).world.posted =
        [{ message := "tab-info", from_ := some "tab-a", tab_id_tiebreaker := some 10 }]) :=
  ⟨⟨((C1_tab_info_conflict example_env (example_tab "tab-a" 10) (example_tab "tab-a" 5)
        (by decide)).2.2.1 (by decide)).2, by decide⟩,
    ⟨(C1_tab_info_conflict example_env (example_tab "tab-a" 10) (example_tab "tab-a" 20)
        (by decide)).2.2.2.1 (by decide), by decide⟩⟩

/-- C2, the claim as stated fails: two tabs hold the tab ID "tab-a" and both have the
tiebreaker 7.  Each processes the tab-info message of the other, and both recreate their
tab ID: neither of them keeps "tab-a". -/
theorem C2_equal_tiebreakers_both_recreate :
    (example_tab "tab-a" 7).send_image.tab_id = (example_tab "tab-a" 7).send_image.tab_id ∧
    (received_message example_env (example_tab "tab-a" 7)
      (tab_info_message (example_tab "tab-a" 7))).world.send_image.tab_id = "fresh-uuid" ∧
    (received_message { example_env with create_uuid := "other-uuid" } (example_tab "tab-a" 7)
      (tab_info_message (example_tab "tab-a" 7))).world.send_image.tab_id = "other-uuid" ∧
    (received_message example_env (example_tab "tab-a" 7)
      (tab_info_message (example_tab "tab-a" 7))).world.send_image.tab_id ≠ "tab-a" ∧
    (received_message { example_env with create_uuid := "other-uuid" } (example_tab "tab-a" 7)
      (tab_info_message (example_tab "tab-a" 7))).world.send_image.tab_id ≠ "tab-a" := by
  decide

/-- C2, amended: two tabs hold the same tab ID and each processes the tab-info message
the other broadcasts.  If their tiebreakers differ, the tab with the higher tiebreaker
takes the next UUID as its tab ID and the other tab keeps its ID, so exactly one tab gives
up the shared ID; if the tiebreakers are equal both tabs take a new UUID. -/
theorem C2_conflict_resolution (env_a env_b : Env) (a b : World)
    (hsame : a.send_image.tab_id = b.send_image.tab_id) :
    (b.send_image.tab_id_tiebreaker < a.send_image.tab_id_tiebreaker →
      (received_message env_a a (tab_info_message b)).world.send_image.tab_id =
        env_a.create_uuid ∧
      (received_message env_b b (tab_info_message a)).world.send_image.tab_id =
        b.send_image.tab_id) ∧
    (a.send_image.tab_id_tiebreaker < b.send_image.tab_id_tiebreaker →
      (received_message env_a a (tab_info_message b)).world.send_image.tab_id =
        a.send_image.tab_id ∧
      (received_message env_b b (tab_info_message a)).world.send_image.tab_id =
        env_b.create_uuid) ∧
    (a.send_image.tab_id_tiebreaker = b.send_image.tab_id_tiebreaker →
      (received_message env_a a (tab_info_message b)).world.send_image.tab_id =
        env_a.create_uuid ∧
      (received_message env_b b (tab_info_message a)).world.send_image.tab_id =
        env_b.create_uuid) := by
  have ha := received_message_tab_info_tab_id env_a a (tab_info_message b) rfl
    (by simp [tab_info_message, hsame]) rfl
  have hb := received_message_tab_info_tab_id env_b b (tab_info_message a) rfl
    (by simp [tab_info_message, hsame]) rfl
  rw [ha, hb]
  simp only [tiebreaker_ge, tab_info_message]
  refine ⟨?_, ?_, ?_⟩
  · intro hlt
    have h1 : b.send_image.tab_id_tiebreaker ≤ a.send_image.tab_id_tiebreaker := by omega
    have h2 : ¬ a.send_image.tab_id_tiebreaker ≤ b.send_image.tab_id_tiebreaker := by omega
    simp [h1, h2]
  · intro hlt
    have h1 : ¬ b.send_image.tab_id_tiebreaker ≤ a.send_image.tab_id_tiebreaker := by omega
    have h2 : a.send_image.tab_id_tiebreaker ≤ b.send_image.tab_id_tiebreaker := by omega
    simp [h1, h2]
  · intro heq
    simp [heq]

/-- C2, amended, at concrete tabs: two tabs "tab-a" with the tiebreakers 10 and 5. -/
theorem C2_conflict_resolution_witness :
    (received_message example_env (example_tab "tab-a" 10)
      (tab_info_message (example_tab "tab-a" 5))).world.send_image.tab_id =
        example_env.create_uuid ∧
    (received_message example_env (example_tab "tab-a" 5)
      (tab_info_message (example_tab "tab-a" 10))).world.send_image.tab_id =
        (example_tab "tab-a" 5).send_image.tab_id :=
  (C2_conflict_resolution example_env example_env (example_tab "tab-a" 10)
    (example_tab "tab-a" 5) (by decide)).1 (by decide)

/-- C3: a message whose `to` field is present and does not contain the tab ID of the
receiving tab leaves the handler without an exception and with the tab exactly as it
was: no event dispatched on `messages`, no message sent, and the tab ID, the history and
the record of cache calls unchanged.  A message with no `to` field is processed by every
tab that receives it: its event is dispatched on `messages`. -/
theorem C3_addressed_to_other_tabs_ignored (env : Env) (w : World) (data : Message) :
    (∀ ids, data.to_ = some ids → w.send_image.tab_id ∉ ids →
      received_message env w data = { thrown := none, world := w }) ∧
    (data.to_ = none →
      for_another_tab w data = false ∧
      (received_message env w data).world.dispatched = w.dispatched ++ [data]) := by
  constructor
  · intro ids hto hnot
    simp [received_message, for_another_tab, hto, hnot]
  · intro hto
    have haddr : for_another_tab w data = false := by
      simp [for_another_tab, hto]
    refine ⟨haddr, ?_⟩
    unfold received_message
    simp only [haddr, Bool.false_eq_true, if_false]
    split_ifs
    · rw [received_tab_info_dispatched]
    · simp [broadcast_tab_info_eq]
    · rw [received_send_image_dispatched]
    · rw [received_image_info_dispatched]
    · unfold received_preview_mouse_movement
      dsimp only
      split_ifs <;> rfl
    · rfl

/-- C3 at concrete messages: a list-tabs message addressed to "tab-b" only arriving at
"tab-a", and the same message without a `to` field. -/
theorem C3_addressed_to_other_tabs_ignored_witness :
    received_message example_env (example_tab "tab-a" 10)
        { message := "list-tabs", from_ := some "tab-c", to_ := some ["tab-b"] } =
      { thrown := none, world := example_tab "tab-a" 10 } ∧
    (for_another_tab (example_tab "tab-a" 10) { message := "list-tabs", from_ := some "tab-c" }
        = false ∧
      (received_message example_env (example_tab "tab-a" 10)
        { message := "list-tabs", from_ := some "tab-c" }).world.dispatched =
        (example_tab "tab-a" 10).dispatched ++ [{ message := "list-tabs", from_ := some "tab-c" }]) :=
  ⟨(C3_addressed_to_other_tabs_ignored example_env (example_tab "tab-a" 10)
      { message := "list-tabs", from_ := some "tab-c", to_ := some ["tab-b"] }).1
      ["tab-b"] rfl (by decide),
    (C3_addressed_to_other_tabs_ignored example_env (example_tab "tab-a" 10)
      { message := "list-tabs", from_ := some "tab-c" }).2 rfl⟩

/-- The number 0 is no units. -/
theorem whole_zero : JSNumber.whole 0 = JSNumber.finite 0 := by
  decide!

/-- The number 0 has the exact value 0. -/
theorem units_whole_zero : units (JSNumber.whole 0) = 0 := by
  rw [whole_zero]
  rfl

/-- A number below 2^k has at most k binary digits. -/
theorem bit_length_from_le (fuel : Nat) :
    ∀ n k : Nat, n < 2 ^ k → JSNumber.bit_length_from fuel n ≤ k := by
  induction fuel with
  | zero =>
    intro n k _
    simp [JSNumber.bit_length_from]
  | succ fuel ih =>
    intro n k h
    unfold JSNumber.bit_length_from
    split_ifs with h0
    · exact Nat.zero_le _
    · cases k with
      | zero =>
        simp at h
        exact absurd h h0
      | succ k =>
        have hhalf : n / 2 < 2 ^ k := by
          rw [Nat.div_lt_iff_lt_mul (by norm_num)]
          rw [pow_succ] at h
          exact h
        exact Nat.succ_le_succ (ih _ _ hhalf)

/-- A number below a power of two is below every larger power of two. -/
theorem lt_two_pow_of_le (n i k : Nat) (h : n < 2 ^ i) (hik : i ≤ k) : n < 2 ^ k :=
  lt_of_lt_of_le h (Nat.pow_le_pow_right Nat.two_pos hik)

/-- A number below 2^i, times 2^k, is below 2^(i + k). -/
theorem mul_two_pow_lt (n i k : Nat) (h : n < 2 ^ i) : n * 2 ^ k < 2 ^ (i + k) := by
  rw [pow_add]
  exact Nat.mul_lt_mul_of_pos_right h (Nat.pow_pos Nat.two_pos)

/-- The size of a whole number times a power of two. -/
theorem natAbs_mul_two_pow (n : Int) (k : Nat) : (n * 2 ^ k).natAbs = n.natAbs * 2 ^ k := by
  have h2 : (2 : Int).natAbs = 2 := rfl
  rw [Int.natAbs_mul, Int.natAbs_pow, h2]

/-- A number of units that is a multiple of 2^j and below 2^(53 + j) in size is a double:
rounding leaves it as it is. -/
theorem round_exact (u : Int) (j : Nat) (hj : 2 ^ j ∣ u.natAbs)
    (hsmall : u.natAbs < 2 ^ (53 + j)) (hj2 : 53 + j ≤ 2098) :
    JSNumber.round u = JSNumber.finite u := by
  have hbits : JSNumber.bit_length u.natAbs ≤ 53 + j := bit_length_from_le _ _ _ hsmall
  have hshift : JSNumber.bit_length u.natAbs - 53 ≤ j := by omega
  have hdvd : 2 ^ (JSNumber.bit_length u.natAbs - 53) ∣ u.natAbs :=
    (pow_dvd_pow 2 hshift).trans hj
  have hpos : 0 < 2 ^ (JSNumber.bit_length u.natAbs - 53) := Nat.pow_pos (by norm_num)
  have hlt : u.natAbs < 2 ^ 2098 := lt_two_pow_of_le _ _ 2098 hsmall hj2
  unfold JSNumber.round
  simp only [Nat.mod_eq_zero_of_dvd hdvd, Nat.div_mul_cancel hdvd, Nat.mul_zero]
  have h1 : ¬ (0 > 2 ^ (JSNumber.bit_length u.natAbs - 53) ∨
      (0 = 2 ^ (JSNumber.bit_length u.natAbs - 53) ∧
        u.natAbs / 2 ^ (JSNumber.bit_length u.natAbs - 53) % 2 = 1)) := by
    rintro (h | ⟨h, _⟩) <;> omega
  simp only [h1, if_false, Nat.div_mul_cancel hdvd]
  rw [if_neg (by omega)]
  congr 1
  split_ifs with hneg <;> omega

/-- A whole number below 2^53 in size is a double. -/
theorem whole_exact (n : Int) (h : n.natAbs < 2 ^ 53) :
    JSNumber.whole n = JSNumber.finite (n * 2 ^ 1074) := by
  have habs : (n * 2 ^ 1074).natAbs = n.natAbs * 2 ^ 1074 := natAbs_mul_two_pow n 1074
  unfold JSNumber.whole
  apply round_exact _ 1074
  · rw [habs]
    exact dvd_mul_left _ _
  · rw [habs]
    exact mul_two_pow_lt _ 53 1074 h
  · norm_num

/-- Whole numbers that with their sum are below 2^53 in size are added without rounding. -/
theorem exact_sum_whole (a b : Int) (ha : a.natAbs < 2 ^ 53) (hb : b.natAbs < 2 ^ 53)
    (hab : (a + b).natAbs < 2 ^ 53) :
    JSNumber.add (JSNumber.whole a) (JSNumber.whole b) = JSNumber.whole (a + b) ∧
      exact_sum (JSNumber.whole a) (JSNumber.whole b) = true := by
  have hsum : JSNumber.round (a * 2 ^ 1074 + b * 2 ^ 1074) =
      JSNumber.finite (a * 2 ^ 1074 + b * 2 ^ 1074) := by
    have h := whole_exact (a + b) hab
    unfold JSNumber.whole at h
    rw [add_mul] at h
    exact h
  rw [whole_exact a ha, whole_exact b hb, whole_exact (a + b) hab]
  constructor
  · simp only [JSNumber.add]
    rw [hsum, add_mul]
  · simp only [exact_sum, JSNumber.add]
    rw [hsum]
    exact beq_self_eq_true _

/-- What an exact addition gives: both numbers are finite and their sum is the double
with the sum of their units. -/
theorem exact_sum_spec {a b : JSNumber} (h : exact_sum a b = true) :
    JSNumber.add a b = JSNumber.finite (units a + units b) ∧
      units (JSNumber.add a b) = units a + units b := by
  cases a <;> cases b <;> simp [exact_sum] at h
  simp [units, h]

/-- One call of `send_mouse_movement_to_linked_tabs` while tabs are linked keeps the
settings. -/
theorem send_mouse_movement_settings (w : World) (x y : JSNumber) (now_compared now_stored : Nat) :
    (send_mouse_movement_to_linked_tabs w x y now_compared now_stored).linked_tabs_enabled =
      w.linked_tabs_enabled ∧
    (send_mouse_movement_to_linked_tabs w x y now_compared now_stored).linked_tabs =
      w.linked_tabs := by
  unfold send_mouse_movement_to_linked_tabs
  dsimp only
  split_ifs <;> exact ⟨rfl, rfl⟩

/-- After one call of `send_mouse_movement_to_linked_tabs` the pending movement is what it
was, or what it was with the movement added, or zero. -/
theorem send_mouse_movement_pending (w : World) (x y : JSNumber) (now_compared now_stored : Nat) :
    (send_mouse_movement_to_linked_tabs w x y now_compared now_stored).send_image.pending_movement
        = w.send_image.pending_movement ∨
    (send_mouse_movement_to_linked_tabs w x y now_compared now_stored).send_image.pending_movement
        = (JSNumber.add w.send_image.pending_movement.1 x,
            JSNumber.add w.send_image.pending_movement.2 y) ∨
    (send_mouse_movement_to_linked_tabs w x y now_compared now_stored).send_image.pending_movement
        = (JSNumber.whole 0, JSNumber.whole 0) := by
  unfold send_mouse_movement_to_linked_tabs
  dsimp only
  split_ifs
  · exact Or.inl rfl
  · exact Or.inl rfl
  · exact Or.inr (Or.inl rfl)
  · exact Or.inr (Or.inr rfl)

/-- Calls with whole-number movements whose sizes, with what is pending, add up to less
than 2^53 along x and along y: every addition to `pending_movement` is exact. -/
theorem additions_exact_whole (moves : List (Int × Int × Nat × Nat)) :
    ∀ (w : World) (px py : Int),
      w.send_image.pending_movement = (JSNumber.whole px, JSNumber.whole py) →
      px.natAbs + (moves.map (fun m => m.1.natAbs)).sum < 2 ^ 53 →
      py.natAbs + (moves.map (fun m => m.2.1.natAbs)).sum < 2 ^ 53 →
      additions_exact w (moves.map whole_call) = true := by
  induction moves with
  | nil =>
    intro w px py _ _ _
    rfl
  | cons m rest ih =>
    intro w px py hpending hx hy
    simp only [List.map_cons, List.sum_cons] at hx hy
    have hax := Int.natAbs_add_le px m.1
    have hay := Int.natAbs_add_le py m.2.1
    obtain ⟨haddx, hexx⟩ := exact_sum_whole px m.1 (by omega) (by omega) (by omega)
    obtain ⟨haddy, hexy⟩ := exact_sum_whole py m.2.1 (by omega) (by omega) (by omega)
    simp only [List.map_cons, additions_exact, Bool.and_eq_true]
    refine ⟨⟨?_, ?_⟩, ?_⟩
    · simp only [hpending, whole_call]
      exact hexx
    · simp only [hpending, whole_call]
      exact hexy
    · rcases send_mouse_movement_pending w (whole_call m).x (whole_call m).y
          (whole_call m).now_compared (whole_call m).now_stored with h | h | h
      · exact ih _ px py (by rw [h, hpending]) (by omega) (by omega)
      · refine ih _ (px + m.1) (py + m.2.1) ?_ (by omega) (by omega)
        rw [h, hpending]
        simp only [whole_call]
        rw [haddx, haddy]
      · refine ih _ 0 0 h ?_ ?_
        · simp only [Int.natAbs_zero]
          omega
        · simp only [Int.natAbs_zero]
          omega

/-- One call of `send_mouse_movement_to_linked_tabs` while tabs are linked, its two
additions being exact: what was sent plus what is pending grows by the movement passed. -/
theorem send_mouse_movement_sum (w : World) (x y : JSNumber) (now_compared now_stored : Nat)
    (henabled : w.linked_tabs_enabled = true) (hlinked : w.linked_tabs ≠ [])
    (hx : exact_sum w.send_image.pending_movement.1 x = true)
    (hy : exact_sum w.send_image.pending_movement.2 y = true) :
    sent_x (send_mouse_movement_to_linked_tabs w x y now_compared now_stored) +
        units (send_mouse_movement_to_linked_tabs w x y now_compared
          now_stored).send_image.pending_movement.1
      = sent_x w + units w.send_image.pending_movement.1 + units x ∧
    sent_y (send_mouse_movement_to_linked_tabs w x y now_compared now_stored) +
        units (send_mouse_movement_to_linked_tabs w x y now_compared
          now_stored).send_image.pending_movement.2
      = sent_y w + units w.send_image.pending_movement.2 + units y := by
  have hlen : ¬ (w.linked_tabs.length = 0) := by
    intro h
    exact hlinked (List.length_eq_zero.mp h)
  have hux := (exact_sum_spec hx).2
  have huy := (exact_sum_spec hy).2
  unfold send_mouse_movement_to_linked_tabs
  simp only [henabled, Bool.not_true, Bool.false_eq_true, if_false, beq_iff_eq, hlen]
  split_ifs
  · simp only [sent_x, sent_y, mouse_movement_messages, hux, huy]
    constructor <;> ring
  · simp only [send_message_to_channel, sent_x, sent_y, mouse_movement_messages,
      List.filter_append, List.map_append, List.sum_append]
    simp [hux, huy, units_whole_zero]
    constructor <;> ring

/-- One call of `send_mouse_movement_to_linked_tabs` while tabs are linked: either a
message is posted, the stored time becomes `now_stored` and the time stored before is at
least 10 ms before `now_compared`, or nothing is posted and the stored time stays. -/
theorem send_mouse_movement_time (w : World) (x y : JSNumber) (now_compared now_stored : Nat)
    (henabled : w.linked_tabs_enabled = true) (hlinked : w.linked_tabs ≠ []) :
    ((send_mouse_movement_to_linked_tabs w x y now_compared now_stored).posted.length ≠
        w.posted.length ∧
      (send_mouse_movement_to_linked_tabs w x y now_compared
        now_stored).send_image.last_movement_message_time = some now_stored ∧
      ∀ last, w.send_image.last_movement_message_time = some last → last + 10 ≤ now_compared) ∨
    ((send_mouse_movement_to_linked_tabs w x y now_compared now_stored).posted.length =
        w.posted.length ∧
      (send_mouse_movement_to_linked_tabs w x y now_compared
        now_stored).send_image.last_movement_message_time =
        w.send_image.last_movement_message_time) := by
  have hlen : ¬ (w.linked_tabs.length = 0) := by
    intro h
    exact hlinked (List.length_eq_zero.mp h)
  unfold send_mouse_movement_to_linked_tabs
  simp only [henabled, Bool.not_true, Bool.false_eq_true, if_false, beq_iff_eq, hlen]
  cases hlast : w.send_image.last_movement_message_time with
  | none => simp [send_message_to_channel]
  | some last =>
    by_cases hsoon : (now_compared : Int) - (last : Int) < 10
    · simp [hsoon]
    · simp [hsoon, send_message_to_channel]
      omega

/-- A sequence of calls of `send_mouse_movement_to_linked_tabs` while tabs are linked, all
additions being exact: what was sent plus what is pending grows by the sum of the
movements passed. -/
theorem run_mouse_calls_sum (calls : List MouseCall) :
    ∀ w : World, w.linked_tabs_enabled = true → w.linked_tabs ≠ [] →
      additions_exact w calls = true →
      sent_x (run_mouse_calls w calls).1 +
          units (run_mouse_calls w calls).1.send_image.pending_movement.1
        = sent_x w + units w.send_image.pending_movement.1 +
            (calls.map (fun c => units c.x)).sum ∧
      sent_y (run_mouse_calls w calls).1 +
          units (run_mouse_calls w calls).1.send_image.pending_movement.2
        = sent_y w + units w.send_image.pending_movement.2 +
            (calls.map (fun c => units c.y)).sum := by
  induction calls with
  | nil =>
    intro w _ _ _
    simp [run_mouse_calls]
  | cons c rest ih =>
    intro w henabled hlinked hexact
    simp only [additions_exact, Bool.and_eq_true] at hexact
    obtain ⟨⟨hx, hy⟩, hrest⟩ := hexact
    obtain ⟨hsx, hsy⟩ :=
      send_mouse_movement_sum w c.x c.y c.now_compared c.now_stored henabled hlinked hx hy
    obtain ⟨hen1, hl1⟩ := send_mouse_movement_settings w c.x c.y c.now_compared c.now_stored
    obtain ⟨ihx, ihy⟩ :=
      ih (send_mouse_movement_to_linked_tabs w c.x c.y c.now_compared c.now_stored)
        (by rw [hen1]; exact henabled) (by rw [hl1]; exact hlinked) hrest
    simp only [run_mouse_calls, List.map_cons, List.sum_cons]
    exact ⟨by rw [ihx, hsx]; ring, by rw [ihy, hsy]; ring⟩

/-- A sequence of calls of `send_mouse_movement_to_linked_tabs` while tabs are linked, the
clock not running backwards inside a call: the times stored by the calls that posted,
after the time stored before the sequence, are each at least 10 ms after the one before. -/
theorem run_mouse_calls_time (calls : List MouseCall) :
    ∀ w : World, w.linked_tabs_enabled = true → w.linked_tabs ≠ [] →
      (∀ c ∈ calls, c.now_compared ≤ c.now_stored) →
      List.Chain' (fun a b => a + 10 ≤ b)
        (w.send_image.last_movement_message_time.toList ++ (run_mouse_calls w calls).2) := by
  induction calls with
  | nil =>
    intro w _ _ _
    cases w.send_image.last_movement_message_time <;> simp [run_mouse_calls]
  | cons c rest ih =>
    intro w henabled hlinked hclock
    obtain ⟨hen1, hl1⟩ := send_mouse_movement_settings w c.x c.y c.now_compared c.now_stored
    have hsent := send_mouse_movement_time w c.x c.y c.now_compared c.now_stored henabled hlinked
    have hrest : ∀ c1 ∈ rest, c1.now_compared ≤ c1.now_stored :=
      fun c1 hc1 => hclock c1 (List.mem_cons_of_mem _ hc1)
    have hc : c.now_compared ≤ c.now_stored := hclock c (List.mem_cons_self _ _)
    have ihchain :=
      ih (send_mouse_movement_to_linked_tabs w c.x c.y c.now_compared c.now_stored)
        (by rw [hen1]; exact henabled) (by rw [hl1]; exact hlinked) hrest
    simp only [run_mouse_calls]
    rcases hsent with ⟨hlen, hstored, hapart⟩ | ⟨hlen, hstored⟩
    · rw [hstored] at ihchain
      simp only [ne_eq, hlen, not_false_eq_true, bne_iff_ne, if_true]
      cases hlast : w.send_image.last_movement_message_time with
      | none => simpa using ihchain
      | some last =>
        have h10 := hapart last hlast
        simp only [Option.toList, List.singleton_append, List.cons_append, List.nil_append,
          List.chain'_cons]
        exact ⟨by omega, by simpa using ihchain⟩
    · rw [hstored] at ihchain
      simpa [hlen] using ihchain

/-- C12, the claim as stated fails.  On a tab with a linked tab, the movements 1, 2^53, 1
and 0 along x at the times 100, 105, 109 and 110 are sent as 1 and 2^53: the addition
2^53 + 1 of doubles gives 2^53, so what was sent plus what is pending is one less than the
sum of the movements passed.  And with the clock set back between the two readings of
`Date.now()` in a call, messages are sent at the stored times 100 and 105, less than 10 ms
apart. -/
theorem C12_rounding_and_clock_break_the_claim :
    (mouse_movement_messages (run_mouse_calls example_linked_tab example_calls_rounding).1).map
      (fun m => m.x) = [some (JSNumber.whole 1), some (JSNumber.whole (2 ^ 53))] ∧
    (run_mouse_calls example_linked_tab
      example_calls_rounding).1.send_image.pending_movement.1 = JSNumber.whole 0 ∧
    sent_x (run_mouse_calls example_linked_tab example_calls_rounding).1 +
        units (run_mouse_calls example_linked_tab
          example_calls_rounding).1.send_image.pending_movement.1 + units (JSNumber.whole 1)
      = (example_calls_rounding.map (fun c => units c.x)).sum ∧
    sent_x (run_mouse_calls example_linked_tab example_calls_rounding).1 +
        units (run_mouse_calls example_linked_tab
          example_calls_rounding).1.send_image.pending_movement.1
      ≠ (example_calls_rounding.map (fun c => units c.x)).sum ∧
    (run_mouse_calls example_linked_tab example_calls_clock_set_back).2 = [100, 105] ∧
    ¬ List.Chain' (fun a b => a + 10 ≤ b)
      (run_mouse_calls example_linked_tab example_calls_clock_set_back).2 := by
  have hclock : (run_mouse_calls example_linked_tab example_calls_clock_set_back).2 =
      [100, 105] := by
    decide!
  refine ⟨by decide!, by decide!, by decide!, by decide!, hclock, ?_⟩
  rw [hclock]
  simp

/-- C12, amended: for every sequence of calls send_mouse_movement_to_linked_tabs(x_i, y_i),
made while linked_tabs_enabled is set and linked_tabs is non-empty on a tab that has sent
no movement yet and has none pending, after every number k of the calls: if the additions
to pending_movement in these calls were all exact, free of rounding, the sum of the x
(resp. y) fields of the preview-mouse-movement messages posted plus pending_movement[0]
(resp. [1]) equals the sum of the x_i (resp. y_i) of these k calls; the additions are all
exact when the movements are whole numbers whose sizes add up to less than 2^53 along x
and along y; and if in no call the clock runs backwards between its two readings of
`Date.now()`, the stored times at which the messages were sent are each at least 10 ms
after the one before. -/
theorem C12_mouse_movement_batched (w : World) (calls : List MouseCall)
    (henabled : w.linked_tabs_enabled = true) (hlinked : w.linked_tabs ≠ [])
    (hpending : w.send_image.pending_movement = (JSNumber.whole 0, JSNumber.whole 0))
    (hnone : mouse_movement_messages w = []) (k : Nat) :
    (additions_exact w (calls.take k) = true →
      sent_x (run_mouse_calls w (calls.take k)).1 +
          units (run_mouse_calls w (calls.take k)).1.send_image.pending_movement.1
        = ((calls.take k).map (fun c => units c.x)).sum ∧
      sent_y (run_mouse_calls w (calls.take k)).1 +
          units (run_mouse_calls w (calls.take k)).1.send_image.pending_movement.2
        = ((calls.take k).map (fun c => units c.y)).sum) ∧
    (∀ moves : List (Int × Int × Nat × Nat), calls = moves.map whole_call →
      (moves.map (fun m => m.1.natAbs)).sum < 2 ^ 53 →
      (moves.map (fun m => m.2.1.natAbs)).sum < 2 ^ 53 →
      additions_exact w (calls.take k) = true) ∧
    ((∀ c ∈ calls, c.now_compared ≤ c.now_stored) →
      List.Chain' (fun a b => a + 10 ≤ b)
        (w.send_image.last_movement_message_time.toList ++
          (run_mouse_calls w (calls.take k)).2)) := by
  refine ⟨?_, ?_, ?_⟩
  · intro hexact
    obtain ⟨hx, hy⟩ := run_mouse_calls_sum (calls.take k) w henabled hlinked hexact
    have h0x : sent_x w = 0 := by simp [sent_x, hnone]
    have h0y : sent_y w = 0 := by simp [sent_y, hnone]
    constructor
    · rw [hx, h0x, hpending]
      simp [units_whole_zero]
    · rw [hy, h0y, hpending]
      simp [units_whole_zero]
  · intro moves hmoves hx hy
    have htx := List.sum_take_add_sum_drop (moves.map (fun m => m.1.natAbs)) k
    have hty := List.sum_take_add_sum_drop (moves.map (fun m => m.2.1.natAbs)) k
    rw [← List.map_take] at htx hty
    rw [hmoves, ← List.map_take]
    refine additions_exact_whole (moves.take k) w 0 0 hpending ?_ ?_
    · simp only [Int.natAbs_zero]
      omega
    · simp only [Int.natAbs_zero]
      omega
  · intro hclock
    exact run_mouse_calls_time (calls.take k) w henabled hlinked
      (fun c hc => hclock c (List.mem_of_mem_take hc))

/-- C12, amended, at a concrete tab: the whole movements (3, 1), (2, 2) and (4, -1) at the
times 100, 105 and 112 on the example tab with a linked tab.  The additions are exact,
messages go out at 100 and at 112, and the second carries the batched movement (6, 1). -/
theorem C12_mouse_movement_batched_witness :
    additions_exact example_linked_tab (example_calls.take 3) = true ∧
    (sent_x (run_mouse_calls example_linked_tab (example_calls.take 3)).1 +
        units (run_mouse_calls example_linked_tab
          (example_calls.take 3)).1.send_image.pending_movement.1
      = ((example_calls.take 3).map (fun c => units c.x)).sum ∧
      sent_y (run_mouse_calls example_linked_tab (example_calls.take 3)).1 +
        units (run_mouse_calls example_linked_tab
          (example_calls.take 3)).1.send_image.pending_movement.2
      = ((example_calls.take 3).map (fun c => units c.y)).sum) ∧
    List.Chain' (fun a b => a + 10 ≤ b)
      ((example_linked_tab).send_image.last_movement_message_time.toList ++
        (run_mouse_calls example_linked_tab (example_calls.take 3)).2) ∧
    (run_mouse_calls example_linked_tab example_calls).2 = [100, 112] ∧
    (mouse_movement_messages (run_mouse_calls example_linked_tab example_calls).1).map
      (fun m => (m.x, m.y)) =
      [(some (JSNumber.whole 3), some (JSNumber.whole 1)),
        (some (JSNumber.whole 6), some (JSNumber.whole 1))] :=
  ⟨(C12_mouse_movement_batched example_linked_tab example_calls (by decide!) (by decide!)
      (by decide!) (by decide!) 3).2.1
      [(3, 1, 100, 100), (2, 2, 105, 105), (4, -1, 112, 112)] (by decide!) (by decide!)
      (by decide!),
    (C12_mouse_movement_batched example_linked_tab example_calls (by decide!) (by decide!)
      (by decide!) (by decide!) 3).1 (by decide!),
    (C12_mouse_movement_batched example_linked_tab example_calls (by decide!) (by decide!)
      (by decide!) (by decide!) 3).2.2 (by decide!),
    by decide!, by decide!⟩

/-- While `handling_broadcasted_image_info` is set, an updating cache call is recorded
and changes nothing else, whether or not the cache fires `mediamodified`. -/
theorem cache_call_while_handling (env : Env) (w : World) (c : CacheCall)
    (hflag : w.send_image.handling_broadcasted_image_info = true) :
    (cache_call env w c).world = { w with cache_calls := w.cache_calls ++ [c] } := by
  unfold cache_call
  dsimp only
  split
  · simp [broadcast_illust_changes, hflag]
  · rfl

/-- A property of the tab that every step keeps is kept by two steps in a row, also when
the first one throws. -/
theorem andThen_invariant (P : World → Prop) (h : Handled) (next : World → Handled)
    (hh : P h.world) (hn : ∀ w, P w → P (next w).world) : P (andThen h next).world := by
  unfold andThen
  split
  · exact hh
  · exact hn _ hh

/-- The `"image-info"` branch posts nothing and ends with
`handling_broadcasted_image_info` false when the message is from the same origin. -/
theorem received_image_info_quiet (env : Env) (w : World) (data : Message) :
    (received_image_info env w data).world.posted = w.posted ∧
    (data.origin = some w.page.window.origin →
      (received_image_info env w data).world.send_image.handling_broadcasted_image_info = false) := by
  unfold received_image_info
  dsimp only
  split_ifs with horigin
  · refine ⟨rfl, ?_⟩
    intro h
    simp [h] at horigin
  · refine ⟨?_, fun _ => rfl⟩
    show (andThen _ _).world.posted = w.posted
    have key : ∀ w0 : World, (w0.posted = w.posted ∧
        w0.send_image.handling_broadcasted_image_info = true) →
        ∀ c, ((cache_call env w0 c).world.posted = w.posted ∧
          (cache_call env w0 c).world.send_image.handling_broadcasted_image_info = true) := by
      intro w0 h0 c
      rw [cache_call_while_handling env w0 c h0.2]
      exact h0
    refine (andThen_invariant
      (fun w0 => w0.posted = w.posted ∧ w0.send_image.handling_broadcasted_image_info = true)
      _ _ ?_ ?_).1
    · split
      · refine key _ ?_ _
        exact ⟨rfl, rfl⟩
      · exact ⟨rfl, rfl⟩
    · intro w2 hw2
      refine andThen_invariant
        (fun w0 => w0.posted = w.posted ∧ w0.send_image.handling_broadcasted_image_info = true)
        _ _ ?_ ?_
      · split
        · exact key _ hw2 _
        · exact hw2
      · intro w3 hw3
        split
        · exact key _ hw3 _
        · exact hw3

/-- C13: while a tab processes a received "image-info" message from its own origin, no
`mediamodified` notification the caches fire makes it post a message: the handler posts
nothing, whatever the caches do; when it ends, with or without an exception from a cache
update, handling_broadcasted_image_info is false; and a `mediamodified` notification
outside such processing, with handling_broadcasted_image_info false, posts the image-info
message of the image. -/
theorem C13_image_info_not_rebroadcast (env : Env) (w : World) (data : Message)
    (hmsg : data.message = "image-info")
    (haddr : for_another_tab w data = false)
    (horigin : data.origin = some w.page.window.origin) :
    (received_message env w data).world.posted = w.posted ∧
    (received_message env w data).world.send_image.handling_broadcasted_image_info = false ∧
    (∀ media_id, w.send_image.handling_broadcasted_image_info = false →
      (broadcast_illust_changes env w media_id).posted =
        w.posted ++ [image_info_message env w media_id]) := by
  have hrec : received_message env w data =
      received_image_info env { w with dispatched := w.dispatched ++ [data] } data := by
    simp [received_message, haddr, hmsg]
  rw [hrec]
  refine ⟨(received_image_info_quiet env _ data).1, (received_image_info_quiet env _ data).2 horigin,
    ?_⟩
  intro media_id hflag
  simp [broadcast_illust_changes, hflag, broadcast_image_info, send_message_to_channel,
    image_info_message]

/-- C13 at a concrete tab: the caches fire `mediamodified` on every update and throw on
the update of the bookmark tags.  The handler ends with that exception, has posted nothing
and has cleared the flag; the same notification outside the handler posts one message. -/
theorem C13_image_info_not_rebroadcast_witness :
    (received_message example_env_firing (example_tab "tab-a" 10)
      { message := "image-info", from_ := some "tab-b", media_id := some "illust:1",
        media_info := some { userId := none, json := "" }, bookmark_tags := some ["a"],
        origin := some "https://www.pixiv.net" }).thrown = some JSError.TypeError ∧
    ((received_message example_env_firing (example_tab "tab-a" 10)
        { message := "image-info", from_ := some "tab-b", media_id := some "illust:1",
          media_info := some { userId := none, json := "" }, bookmark_tags := some ["a"],
          origin := some "https://www.pixiv.net" }).world.posted =
        (example_tab "tab-a" 10).posted ∧
      (received_message example_env_firing (example_tab "tab-a" 10)
        { message := "image-info", from_ := some "tab-b", media_id := some "illust:1",
          media_info := some { userId := none, json := "" }, bookmark_tags := some ["a"],
          origin := some "https://www.pixiv.net" }).world.send_image.handling_broadcasted_image_info
        = false ∧
      (broadcast_illust_changes example_env_firing (example_tab "tab-a" 10) "illust:1").posted =
        (example_tab "tab-a" 10).posted ++
          [image_info_message example_env_firing (example_tab "tab-a" 10) "illust:1"]) :=
  ⟨by decide,
    (C13_image_info_not_rebroadcast example_env_firing (example_tab "tab-a" 10)
      { message := "image-info", from_ := some "tab-b", media_id := some "illust:1",
        media_info := some { userId := none, json := "" }, bookmark_tags := some ["a"],
        origin := some "https://www.pixiv.net" } (by decide) (by decide) (by decide)).1,
    (C13_image_info_not_rebroadcast example_env_firing (example_tab "tab-a" 10)
      { message := "image-info", from_ := some "tab-b", media_id := some "illust:1",
        media_info := some { userId := none, json := "" }, bookmark_tags := some ["a"],
        origin := some "https://www.pixiv.net" } (by decide) (by decide) (by decide)).2.1,
    (C13_image_info_not_rebroadcast example_env_firing (example_tab "tab-a" 10)
      { message := "image-info", from_ := some "tab-b", media_id := some "illust:1",
        media_info := some { userId := none, json := "" }, bookmark_tags := some ["a"],
        origin := some "https://www.pixiv.net" } (by decide) (by decide) (by decide)).2.2
      "illust:1" (by decide)⟩

/-- A tab has posted what it has posted. -/
theorem posts_more_refl (w : World) : posts_more w w :=
  ⟨⟨[], by simp⟩, rfl⟩

/-- Posting more after posting more is posting more. -/
theorem posts_more_trans {a b c : World} (hab : posts_more a b) (hbc : posts_more b c) :
    posts_more a c := by
  obtain ⟨⟨r1, h1⟩, d1⟩ := hab
  obtain ⟨⟨r2, h2⟩, d2⟩ := hbc
  exact ⟨⟨r1 ++ r2, by rw [h2, h1, List.append_assoc]⟩, by rw [d2, d1]⟩

/-- The first two statements of `send_message` only add to what is posted. -/
theorem send_message_to_channel_posts_more (w : World) (data : Message) :
    posts_more w (send_message_to_channel w data).1 :=
  ⟨⟨_, rfl⟩, rfl⟩

/-- The listener for `mediamodified` only adds to what is posted. -/
theorem broadcast_illust_changes_posts_more (env : Env) (w : World) (media_id : String) :
    posts_more w (broadcast_illust_changes env w media_id) := by
  unfold broadcast_illust_changes broadcast_image_info
  split_ifs
  · exact posts_more_refl w
  · exact send_message_to_channel_posts_more w _

/-- An updating cache call only adds to what is posted. -/
theorem cache_call_posts_more (env : Env) (w : World) (c : CacheCall) :
    posts_more w (cache_call env w c).world := by
  unfold cache_call
  dsimp only
  split
  · exact posts_more_trans ⟨⟨[], by simp⟩, rfl⟩ (broadcast_illust_changes_posts_more env _ _)
  · exact ⟨⟨[], by simp⟩, rfl⟩

/-- Two steps that each only add to what is posted do so together. -/
theorem andThen_posts_more (w : World) (h : Handled) (next : World → Handled)
    (hh : posts_more w h.world) (hn : ∀ w1, posts_more w1 (next w1).world) :
    posts_more w (andThen h next).world := by
  unfold andThen
  split
  · exact hh
  · exact posts_more_trans hh (hn _)

/-- The `"tab-info"` branch only adds to what is posted. -/
theorem received_tab_info_posts_more (env : Env) (w : World) (data : Message) :
    posts_more w (received_tab_info env w data).world := by
  unfold received_tab_info
  dsimp only
  split_ifs
  · refine posts_more_trans ?_ (send_message_to_channel_posts_more _ _)
    unfold recreate_tab_id create_tab_id
    dsimp only
    split_ifs <;> exact ⟨⟨[], by simp⟩, rfl⟩
  · exact send_message_to_channel_posts_more _ _
  · exact posts_more_refl w

/-- The `"send-image"` branch only adds to what is posted. -/
theorem received_send_image_posts_more (env : Env) (w : World) (data : Message) :
    posts_more w (received_send_image env w data).world := by
  unfold received_send_image
  dsimp only
  apply andThen_posts_more
  · split_ifs
    · apply andThen_posts_more
      · split
        · exact cache_call_posts_more env w _
        · exact posts_more_refl w
      · intro w1
        split
        · exact cache_call_posts_more env w1 _
        · exact posts_more_refl w1
    · exact posts_more_refl w
  · intro w1
    split_ifs
    · split
      · exact ⟨⟨[], by simp⟩, rfl⟩
      · exact posts_more_refl w1
    · unfold hide_preview_image
      split_ifs
      · exact posts_more_refl w1
      · exact ⟨⟨[], by simp⟩, rfl⟩
    · exact ⟨⟨[], by simp⟩, rfl⟩

/-- The `"image-info"` branch only adds to what is posted. -/
theorem received_image_info_posts_more (env : Env) (w : World) (data : Message) :
    posts_more w (received_image_info env w data).world := by
  refine ⟨⟨[], ?_⟩, ?_⟩
  · rw [(received_image_info_quiet env w data).1]
    simp
  · unfold received_image_info
    dsimp only
    split_ifs
    · rfl
    · show (andThen _ _).world.delivered_to_self = w.delivered_to_self
      refine (andThen_posts_more
        { w with send_image := { w.send_image with handling_broadcasted_image_info := true } }
        _ _ ?_ ?_).2
      · split
        · exact cache_call_posts_more env _ _
        · exact posts_more_refl _
      · intro w2
        apply andThen_posts_more
        · split
          · exact cache_call_posts_more env _ _
          · exact posts_more_refl _
        · intro w3
          split
          · exact cache_call_posts_more env _ _
          · exact posts_more_refl _

/-- The listener `received_message` only adds to what is posted, and delivers nothing to
the tab itself. -/
theorem received_message_posts_more (env : Env) (w : World) (data : Message) :
    posts_more w (received_message env w data).world := by
  unfold received_message
  dsimp only
  split_ifs
  · exact posts_more_refl w
  · exact posts_more_trans ⟨⟨[], by simp⟩, rfl⟩ (received_tab_info_posts_more env _ data)
  · exact posts_more_trans ⟨⟨[], by simp⟩, rfl⟩ (send_message_to_channel_posts_more _ _)
  · exact posts_more_trans ⟨⟨[], by simp⟩, rfl⟩ (received_send_image_posts_more env _ data)
  · exact posts_more_trans ⟨⟨[], by simp⟩, rfl⟩ (received_image_info_posts_more env _ data)
  · unfold received_preview_mouse_movement
    dsimp only
    split_ifs <;> exact ⟨⟨[], by simp⟩, rfl⟩
  · exact ⟨⟨[], by simp⟩, rfl⟩

/-- Without `send_to_self`, `send_message` is its first two statements. -/
theorem send_message_not_to_self (env : Env) (w : World) (data : Message) :
    send_message env w data false = send_message_to_channel w data := by
  simp [send_message]

/-- The JSON copy of a message whose `x` and `y` are finite numbers or missing is the
message itself. -/
theorem json_copy_finite (data : Message)
    (hx : ∀ n, data.x = some n → ∃ u, n = JSNumber.finite u)
    (hy : ∀ n, data.y = some n → ∃ u, n = JSNumber.finite u) :
    json_copy data = data := by
  have h : ∀ value : Option JSNumber, (∀ n, value = some n → ∃ u, n = JSNumber.finite u) →
      json_number value = value := by
    intro value hv
    cases value with
    | none => rfl
    | some n =>
      obtain ⟨u, hu⟩ := hv n rfl
      subst hu
      rfl
  unfold json_copy
  rw [h data.x hx, h data.y hy]

/-- C15: for every data object, the message send_message posts on the channel is the
object with `from` set to the current tab ID of the tab, whatever `from` the caller
supplied, and every other field as the caller gave it; it is posted first, and without
send_to_self nothing else is posted.  The object of the caller gets that `from` and keeps
its `self` as it was.  With send_to_self the copy delivered to the tab itself is the JSON
copy of the posted message with `self` true added, which but for `self` is the posted
message when its `x` and `y` are finite or missing, and the tab ends as received_message
leaves it on that copy; without send_to_self nothing is delivered to the tab itself. -/
theorem C15_send_message_includes_tab_id (env : Env) (w : World) (data : Message)
    (send_to_self : Bool) :
    (∃ rest, (send_message env w data send_to_self).1.posted =
      w.posted ++ { data with from_ := some w.send_image.tab_id } :: rest) ∧
    (send_message env w data send_to_self).2 = { data with from_ := some w.send_image.tab_id } ∧
    (send_message env w data send_to_self).2.self = data.self ∧
    (send_to_self = true →
      (∃ copy : Message,
        (send_message env w data send_to_self).1.delivered_to_self =
          w.delivered_to_self ++ [copy] ∧
        copy = { json_copy { data with from_ := some w.send_image.tab_id } with
          self := some true } ∧
        copy.self = some true ∧
        copy.from_ = some w.send_image.tab_id ∧
        ((∀ n, data.x = some n → ∃ u, n = JSNumber.finite u) →
          (∀ n, data.y = some n → ∃ u, n = JSNumber.finite u) →
          copy = { data with from_ := some w.send_image.tab_id, self := some true }) ∧
        (send_message env w data send_to_self).1 =
          (received_message env
            { w with
              posted := w.posted ++ [{ data with from_ := some w.send_image.tab_id }]
              delivered_to_self := w.delivered_to_self ++ [copy] }
            copy).world)) ∧
    (send_to_self = false →
      (send_message env w data send_to_self).1.posted =
        w.posted ++ [{ data with from_ := some w.send_image.tab_id }] ∧
      (send_message env w data send_to_self).1.delivered_to_self = w.delivered_to_self) := by
  cases send_to_self
  · simp [send_message, send_message_to_channel]
  · obtain ⟨⟨rest, hrest⟩, hself⟩ := received_message_posts_more env
      { w with
        posted := w.posted ++ [{ data with from_ := some w.send_image.tab_id }]
        delivered_to_self := w.delivered_to_self ++
          [{ json_copy { data with from_ := some w.send_image.tab_id } with
            self := some true }] }
      { json_copy { data with from_ := some w.send_image.tab_id } with self := some true }
    refine ⟨⟨rest, ?_⟩, rfl, rfl, ?_, ?_⟩
    · simp only [send_message, send_message_to_channel, if_true]
      rw [hrest]
      simp
    · intro _
      refine ⟨_, ?_, rfl, rfl, rfl, ?_, rfl⟩
      · simp only [send_message, send_message_to_channel, if_true]
        rw [hself]
      · intro hx hy
        rw [json_copy_finite { data with from_ := some w.send_image.tab_id } hx hy]
    · intro h
      cases h

/-- C15 at concrete messages: the tab "tab-a" sends a list-tabs message with a `from` of
the caller to the tab itself too, so that its own handler answers with a tab-info; and it
sends a show-link-tab message carrying other fields without send_to_self. -/
theorem C15_send_message_includes_tab_id_witness :
    (send_message example_env (example_tab "tab-a" 10)
        { message := "list-tabs", from_ := some "x" } true).1.posted =
      [{ message := "list-tabs", from_ := some "tab-a" },
        { message := "tab-info", from_ := some "tab-a", tab_id_tiebreaker := some 10 }] ∧
    (send_message example_env (example_tab "tab-a" 10)
        { message := "list-tabs", from_ := some "x" } true).2.self = none ∧
    (send_message example_env (example_tab "tab-a" 10)
        { message := "list-tabs", from_ := some "x" } true).1.delivered_to_self =
      [{ message := "list-tabs", from_ := some "tab-a", self := some true }] ∧
    (send_message example_env (example_tab "tab-a" 10)
        { message := "show-link-tab", other := [("linked_tabs", "[]")] } false).1.posted =
      [{ message := "show-link-tab", from_ := some "tab-a", other := [("linked_tabs", "[]")] }] :=
  ⟨by decide,
    (C15_send_message_includes_tab_id example_env (example_tab "tab-a" 10)
      { message := "list-tabs", from_ := some "x" } true).2.2.1,
    by decide,
    ((C15_send_message_includes_tab_id example_env (example_tab "tab-a" 10)
      { message := "show-link-tab", other := [("linked_tabs", "[]")] } false).2.2.2.2 rfl).1⟩

end SendImage

/-! ## Properties of Actions -/

namespace Actions

/-- The loop over the new tags sends nothing and leaves the setting and the caches. -/
theorem update_recent_new_tags_frame (w : ActionsWorld) (bookmark_tags tags : List String) :
    (update_recent_new_tags w bookmark_tags tags).requests = w.requests ∧
    (update_recent_new_tags w bookmark_tags tags).bookmarkData = w.bookmarkData ∧
    (update_recent_new_tags w bookmark_tags tags).bookmark_tags = w.bookmark_tags := by
  induction tags generalizing w with
  | nil => exact ⟨rfl, rfl, rfl⟩
  | cons tag rest ih =>
    unfold update_recent_new_tags
    dsimp only
    split_ifs
    · have h := ih { w with recent_bookmark_tags := w.recent_bookmark_tags ++ [[tag]] }
      exact h
    · exact ih w

/-- The request `_bookmark_add_internal` sends: the tags of the options, or none, and
restrict 1 exactly when `private` is true. -/
theorem bookmark_add_internal_requests (env : ActionsEnv) (w : ActionsWorld)
    (media_id : String) (options : BookmarkOptions) :
    (_bookmark_add_internal env w media_id (some options)).world.requests =
      w.requests ++
        [Request.bookmarks_add (env.media_id_to_illust_id media_id)
          (options.get_tags.getD []) (if options.get_private == some true then 1 else 0)] := by
  unfold _bookmark_add_internal
  dsimp only
  split <;> split_ifs <;>
    simp_all [update_media_info, update_cached_bookmark_image_tags]

/-- With the setting bookmark_privately_by_default off, editing the tags of a bookmarked
site image without naming `private` sends one add request, with the given tags and the
privacy of the existing bookmark. -/
theorem bookmark_add_tags_keeps_privacy (env : ActionsEnv) (w : ActionsWorld)
    (media_id : String) (tags : List String) (bookmarkData : BookmarkData)
    (hlocal : env.is_media_id_local media_id = false)
    (hbookmarked : w.bookmarkData media_id = some bookmarkData)
    (hsetting : w.bookmark_privately_by_default = false) :
    (bookmark_add env w media_id (some { tags := some (some tags) })).world.requests =
      w.requests ++
        [Request.bookmarks_add (env.media_id_to_illust_id media_id) tags
          (if bookmarkData.private_ then 1 else 0)] := by
  have hrw : bookmark_add env w media_id (some { tags := some (some tags) }) =
      _bookmark_add_internal env
        (update_recent_new_tags
          { w with bookmark_details_loads := w.bookmark_details_loads ++ [media_id] }
          (env.load_bookmark_details media_id) tags)
        media_id
        (some { disable_auto_like := true
                private_ := some (some bookmarkData.private_)
                tags := some (some tags) }) := by
    simp [bookmark_add, hlocal, hsetting, hbookmarked, BookmarkOptions.get_tags,
      BookmarkOptions.get_private]
  rw [hrw, bookmark_add_internal_requests, (update_recent_new_tags_frame _ _ _).1]
  cases bookmarkData.private_ <;> simp [BookmarkOptions.get_tags, BookmarkOptions.get_private]

/-- Setting `private` without tags on a bookmarked site image sends one edit_restrict
request for the existing bookmark, stores the new privacy under the same bookmark ID and
leaves the cached bookmark tags of every image as they were, whatever the setting
bookmark_privately_by_default is. -/
theorem bookmark_add_private_only (env : ActionsEnv) (w : ActionsWorld)
    (media_id : String) (private_bookmark : Bool) (bookmarkData : BookmarkData)
    (hlocal : env.is_media_id_local media_id = false)
    (hbookmarked : w.bookmarkData media_id = some bookmarkData) :
    (bookmark_add env w media_id
        (some { private_ := some (some private_bookmark) })).thrown = none ∧
    (bookmark_add env w media_id
        (some { private_ := some (some private_bookmark) })).world.requests =
      w.requests ++
        [Request.bookmarks_edit_restrict [bookmarkData.id]
          (if private_bookmark then "private" else "public")] ∧
    (bookmark_add env w media_id
        (some { private_ := some (some private_bookmark) })).world.bookmarkData media_id =
      some { id := bookmarkData.id, private_ := private_bookmark } ∧
    (bookmark_add env w media_id
        (some { private_ := some (some private_bookmark) })).world.bookmark_tags =
      w.bookmark_tags := by
  simp [bookmark_add, hlocal, hbookmarked, BookmarkOptions.get_tags,
    BookmarkOptions.get_private, bookmark_set_private, update_media_info]

/-- C10: the code at an input where the claim fails.  The image "illust:123" has a public
bookmark, the setting bookmark_privately_by_default is on, and bookmark_add is called
with tags and without `private`.  The add request is sent with restrict 1 and the cached
bookmark becomes private, while the existing bookmark has privacy 0; with the setting off
the same call sends restrict 0. -/
theorem C10_default_privacy_overrides_existing_bookmark :
    example_env.is_media_id_local "illust:123" = false ∧
    (example_world true).bookmarkData "illust:123" = some { id := "b1", private_ := false } ∧
    (bookmark_add example_env (example_world true) "illust:123"
      (some { tags := some (some ["a", "b"]) })).thrown = none ∧
    (bookmark_add example_env (example_world true) "illust:123"
      (some { tags := some (some ["a", "b"]) })).world.requests =
      [Request.bookmarks_add "123" ["a", "b"] 1] ∧
    (bookmark_add example_env (example_world true) "illust:123"
      (some { tags := some (some ["a", "b"]) })).world.bookmarkData "illust:123" =
      some { id := "b1", private_ := true } ∧
    (bookmark_add example_env (example_world false) "illust:123"
      (some { tags := some (some ["a", "b"]) })).world.requests =
      [Request.bookmarks_add "123" ["a", "b"] 0] := by
  decide

/-- With the setting bookmark_privately_by_default off, bookmark_add on a bookmarked site
image with options that hold neither tags nor `private` returns with nothing sent and
nothing changed. -/
theorem bookmark_add_nothing_to_set (env : ActionsEnv) (w : ActionsWorld) (media_id : String)
    (options : Option BookmarkOptions) (bookmarkData : BookmarkData)
    (hlocal : env.is_media_id_local media_id = false)
    (hbookmarked : w.bookmarkData media_id = some bookmarkData)
    (hsetting : w.bookmark_privately_by_default = false)
    (htags : (options.getD {}).get_tags = none)
    (hprivate : (options.getD {}).get_private = none) :
    (bookmark_add env w media_id options).thrown = none ∧
    (bookmark_add env w media_id options).world = w := by
  simp [bookmark_add, hlocal, hsetting, hbookmarked, htags, hprivate]

/-- C11: the code at an input where the claim fails.  The image "illust:123" has a public
bookmark and the setting bookmark_privately_by_default is on.  bookmark_add without
options, or with empty options, does not just stop: it sends an edit_restrict request that
makes the bookmark private and stores the new privacy in the cached bookmark data; with
the setting off the same call sends nothing. -/
theorem C11_nothing_to_set_still_edits_privacy :
    example_env.is_media_id_local "illust:123" = false ∧
    (example_world true).bookmarkData "illust:123" = some { id := "b1", private_ := false } ∧
    (bookmark_add example_env (example_world true) "illust:123" none).world.requests =
      [Request.bookmarks_edit_restrict ["b1"] "private"] ∧
    (bookmark_add example_env (example_world true) "illust:123" none).world.bookmarkData
      "illust:123" = some { id := "b1", private_ := true } ∧
    (bookmark_add example_env (example_world true) "illust:123" (some {})).world.requests =
      [Request.bookmarks_edit_restrict ["b1"] "private"] ∧
    (bookmark_add example_env (example_world false) "illust:123" none).world.requests = [] := by
  decide

end Actions

/-! ## Properties of view_illust -/

namespace view_illust

/-- Updating the page in the URL changes nothing but the record of calls. -/
theorem show_image_update_url_eq (env : ViewEnv) (v : ViewIllust) (illust_data : IllustData)
    (manga_page : Int) :
    ∃ calls, show_image_update_url env v illust_data manga_page = { v with calls := calls } := by
  unfold show_image_update_url
  by_cases h : page_arg_differs env illust_data manga_page = true
  · rw [if_pos h]
    exact ⟨_, rfl⟩
  · rw [if_neg h]
    exact ⟨v.calls, rfl⟩

/-- The viewer that `show_image_create_viewer` creates for an image that is not an
animation: a viewer_images with the last page for a wanted page of -1, the wanted page as
it is otherwise. -/
theorem show_image_create_viewer_page (v : ViewIllust) (illust_data : IllustData)
    (htype : illust_data.illustType ≠ 2) :
    (show_image_create_viewer v illust_data).viewer =
      some { kind := ViewerKind.viewer_images
             page := some (if v.wanted_illust_page = -1 then illust_data.pageCount - 1
                           else v.wanted_illust_page) } := by
  unfold show_image_create_viewer
  simp [call, htype]

/-- Showing a new image keeps the wanted page up to the creation of the viewer. -/
theorem show_image_new_image_viewer (env : ViewEnv) (v : ViewIllust) (illust_id : String)
    (illust_data : IllustData) (hmuted : env.muted illust_data = false)
    (htype : illust_data.illustType ≠ 2) :
    (show_image_new_image env v illust_id illust_data).viewer =
      some { kind := ViewerKind.viewer_images
             page := some (if v.wanted_illust_page = -1 then illust_data.pageCount - 1
                           else v.wanted_illust_page) } := by
  unfold show_image_new_image
  simp only [hmuted, Bool.false_eq_true, if_false]
  rw [show_image_create_viewer_page _ _ htype]
  simp only [call]
  split_ifs <;> rfl

/-- The page a newly created viewer_images is handed: the last page for a wanted page of
-1, the wanted page as it is otherwise, whether or not it is in range. -/
theorem show_image_resume_new_viewer (env : ViewEnv) (v : ViewIllust) (illust_id : String)
    (manga_page : Int) (illust_data : IllustData)
    (hactive : v._active = true) (hwanted : v.wanted_illust_id = some illust_id)
    (hnew : v.current_illust_id ≠ some illust_id ∨ v.viewer = none)
    (hmuted : env.muted illust_data = false) (htype : illust_data.illustType ≠ 2) :
    (show_image_resume env v illust_id manga_page illust_data).viewer =
      some { kind := ViewerKind.viewer_images
             page := some (if v.wanted_illust_page = -1 then illust_data.pageCount - 1
                           else v.wanted_illust_page) } := by
  obtain ⟨calls, hurl⟩ := show_image_update_url_eq env (hide_preview v) illust_data
    (if manga_page == -1 then illust_data.pageCount - 1
      else env.clamp manga_page 0 (illust_data.pageCount - 1))
  have hbranch : (some illust_id == v.current_illust_id && v.viewer.isSome) = false := by
    rcases hnew with h | h
    · have hne : (some illust_id == v.current_illust_id) = false :=
        beq_eq_false_iff_ne.mpr (fun h1 => h h1.symm)
      rw [hne]
      rfl
    · rw [h]
      simp
  unfold show_image_resume
  simp only [hactive, hwanted, Bool.not_true, bne_self_eq_false, Bool.or_self,
    Bool.false_eq_true, if_false, hurl]
  simp only [hide_preview, hbranch, Bool.false_eq_true, if_false]
  rw [show_image_new_image_viewer _ _ _ _ hmuted htype]

/-- The page an existing viewer is handed when the image does not change: the wanted
page as it is, also when it is -1 or out of range. -/
theorem show_image_resume_same_image (env : ViewEnv) (v : ViewIllust) (illust_id : String)
    (manga_page : Int) (illust_data : IllustData) (viewer : Viewer)
    (hactive : v._active = true) (hwanted : v.wanted_illust_id = some illust_id)
    (hcurrent : v.current_illust_id = some illust_id) (hviewer : v.viewer = some viewer) :
    (show_image_resume env v illust_id manga_page illust_data).viewer =
      some { viewer with page := some v.wanted_illust_page } := by
  obtain ⟨calls, hurl⟩ := show_image_update_url_eq env (hide_preview v) illust_data
    (if manga_page == -1 then illust_data.pageCount - 1
      else env.clamp manga_page 0 (illust_data.pageCount - 1))
  unfold show_image_resume
  simp only [hactive, hwanted, Bool.not_true, bne_self_eq_false, Bool.or_self,
    Bool.false_eq_true, if_false, hurl]
  simp only [hide_preview, hcurrent, hviewer, beq_self_eq_true, Option.isSome_some,
    Bool.and_self, if_true]
  unfold show_image_same_image
  simp only [call, hviewer, Option.map_some']
  split_ifs <;> rfl

/-- C14: the code at inputs where the claim fails, for an image with 3 pages.  Shown
first with the requested page 5, the new viewer_images is handed page 5, while the clamped
page is 2 and the URL is set to page 3; shown again with the requested page -1 after it is
displayed at page 0, the viewer is assigned the page -1, not the last page 2. -/
theorem C14_viewer_handed_page_out_of_range :
    (show_image example_env example_view "1" 5 example_illust).viewer =
      some { kind := ViewerKind.viewer_images, page := some 5 } ∧
    (show_image example_env example_view "1" 5 example_illust).calls =
      [ViewCall.set_current_image "1", ViewCall.set_args_page 3 false, ViewCall.refresh_ui,
        ViewCall.message_hide, ViewCall.new_viewer_images 5, ViewCall.refresh_ui] ∧
    example_env.clamp 5 0 (example_illust.pageCount - 1) = 2 ∧
    (show_image example_env (show_image example_env example_view "1" 0 example_illust) "1" (-1)
      example_illust).viewer = some { kind := ViewerKind.viewer_images, page := some (-1) } ∧
    (show_image example_env (show_image example_env example_view "1" 0 example_illust) "1" (-1)
      example_illust).calls =
      (show_image example_env example_view "1" 0 example_illust).calls ++
        [ViewCall.set_current_image "1", ViewCall.set_args_page 3 false,
          ViewCall.viewer_set_page (-1), ViewCall.refresh_ui] := by
  decide

end view_illust

end Ppixiv
